import Mathlib

/-!
Verification development for the `CryptoSig` notification module
(`app/notification.py`).  The Python module is shallowly embedded below:

* Python dicts become association lists (`List (key × value)`), preserving
  insertion/iteration order; dict lookup is `lookupAssoc`, dict assignment is
  `updateAssoc`.
* The pandas tabular `result` of an indicator instance becomes `List Row`;
  only emptiness and the last row are consulted by the module.
* Signal values are modelled in their rendered `String` form: the module
  formats every float signal value with `format(_, '.8f')` immediately after
  reading it, so the string form is the only form downstream code observes.
* Raising Python code is embedded in `Except String`; a `try/except` block
  becomes a total function on the embedded error.
* Template rendering (jinja2) is external to the module; a render call is
  recorded as a `Fragment` value carrying exactly the keyword arguments the
  module passes to `Template.render`.
-/

/-- One row of an instance's tabular result.  `is_hot` / `is_cold` mirror the
boolean columns consulted by the classifier; `signals` is the row's
signal-name → value mapping (values in rendered string form). -/
structure Row where
  is_hot : Bool
  is_cold : Bool
  signals : List (String × String)
deriving DecidableEq, Repr

/-- The alerting-relevant part of an instance's `config` mapping.  All fields
the module reads are present (the configuration contract of the repository);
`key_signal`/`crossed_signal`/`key_indicator_index`/`crossed_indicator_index`
are consulted only for the crossovers family, `period_count` only inside the
composite message. -/
structure IndicatorConfig where
  signal : List String
  alert_enabled : Bool
  alert_frequency : String
  key_signal : String
  crossed_signal : String
  key_indicator_index : Nat
  crossed_indicator_index : Nat
  period_count : Nat
deriving DecidableEq, Repr

/-- One `AnalysisRecord`: `{config, result}` plus the `status` key that the
templater writes back (absent, i.e. `none`, on records fresh from the
upstream producer). -/
structure AnalysisRecord where
  config : IndicatorConfig
  result : List Row
  status : Option String := none
deriving DecidableEq, Repr

/-- A cell of the per-indicator list in the analysis structure.  The webhook
path overwrites such a cell with either the last result row or the empty
string, so the cell type is the sum of the three shapes that can occur. -/
inductive Entry where
  | record (r : AnalysisRecord)
  | lastRow (r : Row)
  | emptyStr
deriving DecidableEq, Repr

/-- The three indicator families the module dispatches on. -/
inductive IndicatorFamily where
  | indicators
  | informants
  | crossovers
deriving DecidableEq, Repr

/-- `new_analysis[exchange][market][indicator_type][indicator]` nesting:
market level. -/
abbrev MarketData := List (IndicatorFamily × List (String × List Entry))

/-- Exchange level of the analysis structure. -/
abbrev ExchangeData := List (String × MarketData)

/-- The full analysis structure passed to the notifier. -/
abbrev AnalysisData := List (String × ExchangeData)

instance : DecidableEq MarketData :=
  inferInstanceAs (DecidableEq (List (IndicatorFamily × List (String × List Entry))))

instance : DecidableEq ExchangeData :=
  inferInstanceAs (DecidableEq (List (String × MarketData)))

instance : DecidableEq AnalysisData :=
  inferInstanceAs (DecidableEq (List (String × ExchangeData)))

/-- Process-wide settings consulted by the module
(`self.config.settings`). -/
structure Settings where
  max_hot_notification : Int
  max_cold_notification : Int
  period_data : String
deriving DecidableEq, Repr

/-- Ordered-dictionary lookup: value of the first entry with the given key. -/
def lookupAssoc {κ α : Type} [DecidableEq κ] : List (κ × α) → κ → Option α
  | [], _ => none
  | (k', v) :: t, k => if k' = k then some v else lookupAssoc t k

/-- Ordered-dictionary assignment `d[k] = v`: overwrite in place when the key
exists, append otherwise (Python dict semantics). -/
def updateAssoc {κ α : Type} [DecidableEq κ] (l : List (κ × α)) (k : κ) (v : α) :
    List (κ × α) :=
  if (lookupAssoc l k).isSome then
    l.map (fun p => if p.1 = k then (p.1, v) else p)
  else
    l ++ [(k, v)]

/-- `Notifier.bollinger_bands_state_calculation`, transcribed over exact
rational arithmetic (the comparisons of the source, free of floating-point
rounding).  The sequential reassignments of `isCold`/`isHot` and the
`if/elif` structure of the source are kept. -/
def bollinger_bands_state_calculation (upperband middleband lowerband v_close : ℚ) :
    String :=
  let isInTop : Bool := decide (v_close > middleband)
  let isDown : Bool := decide (v_close < middleband)
  let isCold : Bool := false
  let isHot : Bool := false
  let isCold : Bool :=
    if isInTop then decide (upperband - v_close < v_close - middleband) else isCold
  let isHot : Bool :=
    if isInTop then isHot
    else if isDown then decide (v_close - lowerband < middleband - v_close) else isHot
  if isCold then "cold" else if isHot then "hot" else "neutral"

/-- Status classification of a latest row (`status = 'neutral'; if is_hot:
'hot' elif is_cold: 'cold'` in the source). -/
def statusOf (latest : Row) : String :=
  if latest.is_hot then "hot" else if latest.is_cold then "cold" else "neutral"

/-- Lookup of `a[exchange][market][indicator_type][indicator][index]` in the
nested analysis structure; `none` models any `KeyError`/`IndexError` along
the path. -/
def lookupEntry (a : AnalysisData) (ex mk : String) (fam : IndicatorFamily)
    (ind : String) (idx : Nat) : Option Entry :=
  (lookupAssoc a ex).bind fun exData =>
    (lookupAssoc exData mk).bind fun mdata =>
      (lookupAssoc mdata fam).bind fun inds =>
        (lookupAssoc inds ind).bind fun entries => entries.get? idx

/-- The debounce lookup
`self.last_analysis[exchange][market][indicator_type][indicator][index]['status']`
wrapped in the source's bare `try/except` that yields the empty string on any
failure (coordinate missing, entry not a record, or record without a
`status` key). -/
def lookupLastStatus (last : AnalysisData) (ex mk : String) (fam : IndicatorFamily)
    (ind : String) (idx : Nat) : String :=
  match lookupEntry last ex mk fam ind idx with
  | some (.record r) => (r.status).getD ""
  | _ => ""

/-- The `for signal in analysis['config']['signal']` loop reading each signal
value out of the latest row (`KeyError` when a configured signal is missing
from the row); values are accumulated into the `values` dict. -/
def collectValues (latest : Row) :
    List (String × String) → List String → Except String (List (String × String))
  | values, [] => .ok values
  | values, sig :: t =>
    match lookupAssoc latest.signals sig with
    | none => .error ("KeyError: " ++ sig)
    | some v => collectValues latest (updateAssoc values sig v) t

/-- Python's `str.split(sep)` for a one-character separator, over the
character list (structural, so concrete instances evaluate): `""` splits to
`[""]`, and every separator occurrence starts a new part. -/
def splitChars (sep : Char) : List Char → List (List Char)
  | [] => [[]]
  | c :: t =>
    let rest := splitChars sep t
    if c = sep then [] :: rest
    else
      match rest with
      | [] => [[c]]
      | h :: t' => (c :: h) :: t'

/-- `base_currency, quote_currency = market.split('/')`; unpacking raises
unless the split yields exactly two parts. -/
def splitMarket (market : String) : Except String (String × String) :=
  match splitChars '/' market.toList with
  | [base_currency, quote_currency] =>
    .ok (String.mk base_currency, String.mk quote_currency)
  | _ => .error ("ValueError: cannot unpack market " ++ market)

/-- One call of `message_template.render(...)` inside the templater,
recording exactly the keyword arguments passed to the render. -/
structure Fragment where
  values : List (String × String)
  exchange : String
  market : String
  base_currency : String
  quote_currency : String
  indicator : String
  indicator_number : Nat
  analysis : AnalysisRecord
  status : String
  last_status : String
deriving DecidableEq, Repr

/-- The `jsonIndicator` dict attached to `allIndicatorData[indicator]`. -/
structure JsonIndicator where
  values : List (String × String)
  exchange : String
  market : String
  base_currency : String
  quote_currency : String
  indicator : String
  indicator_number : Nat
  config : IndicatorConfig
  status : String
  last_status : String
  primary : Bool
deriving DecidableEq, Repr

/-- The `dataCros` dict built for one crossover instance. -/
structure CrossedPair where
  name : String
  key_value : String
  crossed_value : String
  is_hot : Bool
  is_cold : Bool
  key_config : IndicatorConfig
  crossed_config : IndicatorConfig
deriving DecidableEq, Repr

/-- The `informent_result` dict built for one informant instance. -/
structure InformantSnapshot where
  result : List (String × String)
  config : IndicatorConfig
deriving DecidableEq, Repr

/-- The `allIndicatorData` aggregate handed to `notify_custom_telegram`.
The fixed keys (`name`, `exchange`, the `crosed` flag, `crossed`,
`informants`) are separate fields; the per-indicator `jsonIndicator`
entries keyed by indicator name live in `indicators`. -/
structure ObjectsData where
  name : String
  exchange : String
  crosed : Bool
  crossed : List (String × CrossedPair)
  informants : List (String × InformantSnapshot)
  indicators : List (String × JsonIndicator)
deriving DecidableEq, Repr

/-- The per-(exchange, market) loop state of the templater (lines 281-292 of
the source): `sendNotification`, the `allIndicatorData` indicator entries,
`primaryIndicators`, `crossedData`, `informatntData`, the `couldCount` /
`hotCount` tallies, and the rendered fragments accumulated into
`new_message`. -/
structure PairState where
  sendNotification : Bool
  crosed : Bool
  indicatorsData : List (String × JsonIndicator)
  primaryIndicators : List String
  crossedData : List (String × CrossedPair)
  informantData : List (String × InformantSnapshot)
  couldCount : Nat
  hotCount : Nat
  fragments : List Fragment
deriving DecidableEq, Repr

/-- Fresh loop state at the top of each (exchange, market) iteration. -/
def initPairState : PairState :=
  { sendNotification := false, crosed := false, indicatorsData := [],
    primaryIndicators := [], crossedData := [], informantData := [],
    couldCount := 0, hotCount := 0, fragments := [] }

/-- The `should_alert` computation of source lines 382-391: start from
`True`, suppress when the frequency is `once` and the status is unchanged,
then suppress when alerting is disabled (the surrounding `try/except` can
never fire in the embedding because both config keys are present). -/
def shouldAlert (config : IndicatorConfig) (last_status status : String) : Bool :=
  let should_alert : Bool := true
  let should_alert : Bool :=
    if config.alert_frequency = "once" ∧ last_status = status then false else should_alert
  let should_alert : Bool :=
    if config.alert_enabled = false then false else should_alert
  should_alert

/-- Processing of one `indicators`-family record past its `values` loop
(source lines 362-432): classification, tallies (the source additionally
requires the family to be neither `informants` nor `crossovers`, which holds
on this path), status write-back, debounce decision, render, and
`jsonIndicator` attachment.

On the first cycle the source has set `self.last_analysis = new_analysis`
(line 269-270), aliasing the two structures; since the record's `status` is
written (line 373) before the debounce lookup reads the same coordinate of
`self.last_analysis` (lines 377-378), that lookup returns exactly the status
just written, which `firstCycle = true` models directly. -/
def indicatorStep (firstCycle : Bool) (last : AnalysisData) (ex mk base quote ind : String)
    (idx : Nat) (st : PairState) (r : AnalysisRecord) (latest : Row)
    (values : List (String × String)) : PairState × Entry :=
  let status := statusOf latest
  let hotCount :=
    if latest.is_hot ∧ ind ≠ "ichimoku" then st.hotCount + 1 else st.hotCount
  let couldCount :=
    if ¬latest.is_hot ∧ latest.is_cold ∧ ind ≠ "ichimoku" then st.couldCount + 1
    else st.couldCount
  let r' : AnalysisRecord := { r with status := some status }
  let last_status :=
    if firstCycle then status else lookupLastStatus last ex mk .indicators ind idx
  let should_alert : Bool := shouldAlert r.config last_status status
  let jsonIndicator : JsonIndicator :=
    { values := values, exchange := ex, market := mk, base_currency := base,
      quote_currency := quote, indicator := ind, indicator_number := idx,
      config := r.config, status := status, last_status := last_status, primary := false }
  if (latest.is_hot ∨ latest.is_cold) ∧ should_alert = true then
    let primaryIndicators := st.primaryIndicators ++ [ind]
    let fragment : Fragment :=
      { values := values, exchange := ex, market := mk, base_currency := base,
        quote_currency := quote, indicator := ind, indicator_number := idx,
        analysis := r', status := status, last_status := last_status }
    let jsonIndicator :=
      { jsonIndicator with primary := if primaryIndicators.length = 0 then true else false }
    ({ st with sendNotification := true, primaryIndicators := primaryIndicators,
               fragments := st.fragments ++ [fragment],
               hotCount := hotCount, couldCount := couldCount,
               indicatorsData := updateAssoc st.indicatorsData ind jsonIndicator }, .record r')
  else
    ({ st with hotCount := hotCount, couldCount := couldCount,
               indicatorsData := updateAssoc st.indicatorsData ind jsonIndicator }, .record r')

/-- `new_analysis[exchange][market]['informants'][name][i]['config']` as read
by the crossover branch; informant entries are never mutated by the
templater, so the lookup reads the input market data. -/
def lookupInformantConfig (mdata : MarketData) (name : String) (i : Nat) :
    Option IndicatorConfig :=
  (lookupAssoc mdata .informants).bind fun informants =>
    (lookupAssoc informants name).bind fun entries =>
      (entries.get? i).bind fun e =>
        match e with
        | .record r => some r.config
        | _ => none

/-- Processing of one `crossovers`-family record (source lines 327-360). -/
def crossoverStep (st : PairState) (r : AnalysisRecord) (latest : Row)
    (mdata : MarketData) : Except String (PairState × Entry) :=
  let key_signal := r.config.key_signal ++ "_" ++ toString r.config.key_indicator_index
  let crossed_signal :=
    r.config.crossed_signal ++ "_" ++ toString r.config.crossed_indicator_index
  match lookupAssoc latest.signals key_signal with
  | none => .error ("KeyError: " ++ key_signal)
  | some key_value =>
    match lookupAssoc latest.signals crossed_signal with
    | none => .error ("KeyError: " ++ crossed_signal)
    | some crossed_value =>
      let name := String.mk (key_signal.toList.take (key_signal.toList.length - 2))
      match lookupInformantConfig mdata name 0 with
      | none => .error ("KeyError: informants " ++ name)
      | some key_config =>
        match lookupInformantConfig mdata name 1 with
        | none => .error ("KeyError: informants " ++ name)
        | some crossed_config =>
          let dataCros : CrossedPair :=
            { name := name, key_value := key_value, crossed_value := crossed_value,
              is_hot := latest.is_hot, is_cold := latest.is_cold,
              key_config := key_config, crossed_config := crossed_config }
          .ok ({ st with crosed := true,
                         crossedData := updateAssoc st.crossedData name dataCros }, .record r)

/-- Processing of one entry of the per-indicator list (one iteration of the
`for index, analysis in enumerate(...)` loop): empty results are skipped,
then the three families dispatch.  The source assigns `latest_result =
analysis['result'].iloc[-1]` inside the per-signal loop; for a non-empty
`signal` list that is the record's own last row, which the embedding binds
once up front (theorems about this path therefore carry a non-empty `signal`
hypothesis). -/
def processEntry (firstCycle : Bool) (last : AnalysisData) (ex mk base quote : String)
    (fam : IndicatorFamily) (ind : String) (idx : Nat) (mdata : MarketData)
    (st : PairState) (e : Entry) : Except String (PairState × Entry) :=
  match e with
  | .lastRow _ => .error "TypeError: entry is not an analysis record"
  | .emptyStr => .error "TypeError: entry is not an analysis record"
  | .record r =>
    match r.result.getLast? with
    | none => .ok (st, .record r)
    | some latest =>
      match fam with
      | .informants =>
        match collectValues latest [] r.config.signal with
        | .error er => .error er
        | .ok values =>
          let informent_result : InformantSnapshot := { result := values, config := r.config }
          .ok ({ st with informantData := updateAssoc st.informantData ind informent_result },
               .record r)
      | .indicators =>
        match collectValues latest [] r.config.signal with
        | .error er => .error er
        | .ok values =>
          .ok (indicatorStep firstCycle last ex mk base quote ind idx st r latest values)
      | .crossovers => crossoverStep st r latest mdata

/-- The `for index, analysis in enumerate(...)` loop over one indicator's
entry list, threading the pair state and rebuilding the (status-mutated)
entry list. -/
def processEntries (firstCycle : Bool) (last : AnalysisData) (ex mk base quote : String)
    (fam : IndicatorFamily) (ind : String) (mdata : MarketData) :
    Nat → PairState → List Entry → Except String (PairState × List Entry)
  | _, st, [] => .ok (st, [])
  | idx, st, e :: t =>
    match processEntry firstCycle last ex mk base quote fam ind idx mdata st e with
    | .error er => .error er
    | .ok (st', e') =>
      match processEntries firstCycle last ex mk base quote fam ind mdata (idx + 1) st' t with
      | .error er => .error er
      | .ok (st'', t') => .ok (st'', e' :: t')

/-- The `for indicator in ...` loop over one family's indicators. -/
def processIndicators (firstCycle : Bool) (last : AnalysisData) (ex mk base quote : String)
    (fam : IndicatorFamily) (mdata : MarketData) :
    PairState → List (String × List Entry) →
      Except String (PairState × List (String × List Entry))
  | st, [] => .ok (st, [])
  | st, (ind, entries) :: t =>
    match processEntries firstCycle last ex mk base quote fam ind mdata 0 st entries with
    | .error er => .error er
    | .ok (st', entries') =>
      match processIndicators firstCycle last ex mk base quote fam mdata st' t with
      | .error er => .error er
      | .ok (st'', t') => .ok (st'', (ind, entries') :: t')

/-- The `for indicator_type in ...` loop over the families of one market. -/
def processFamilies (firstCycle : Bool) (last : AnalysisData) (ex mk base quote : String)
    (mdata : MarketData) :
    PairState → List (IndicatorFamily × List (String × List Entry)) →
      Except String (PairState × MarketData)
  | st, [] => .ok (st, [])
  | st, (fam, inds) :: t =>
    match processIndicators firstCycle last ex mk base quote fam mdata st inds with
    | .error er => .error er
    | .ok (st', inds') =>
      match processFamilies firstCycle last ex mk base quote mdata st' t with
      | .error er => .error er
      | .ok (st'', t') => .ok (st'', (fam, inds') :: t')

/-- One (exchange, market) iteration of the templater: currency split, fresh
pair state, family processing, and the composite trigger check of source
lines 433-439.  The returned `Option ObjectsData` is the argument of the
`notify_custom_telegram` invocation when the trigger fires, `none`
otherwise. -/
def processMarket (s : Settings) (firstCycle : Bool) (last : AnalysisData)
    (ex mk : String) (mdata : MarketData) :
    Except String (MarketData × PairState × Option ObjectsData) :=
  match splitMarket mk with
  | .error er => .error er
  | .ok (base, quote) =>
    match processFamilies firstCycle last ex mk base quote mdata initPairState mdata with
    | .error er => .error er
    | .ok (st, mdata') =>
      let data : Option ObjectsData :=
        if st.sendNotification = true ∧ 2 ≤ st.primaryIndicators.length ∧
            (s.max_hot_notification ≤ (st.hotCount : Int) ∨
             s.max_cold_notification ≤ (st.couldCount : Int)) then
          some { name := base ++ quote, exchange := ex, crosed := st.crosed,
                 crossed := st.crossedData, informants := st.informantData,
                 indicators := st.indicatorsData }
        else none
      .ok (mdata', st, data)

/-- The `for market in ...` loop over one exchange, concatenating rendered
fragments and collecting composite invocations in processing order. -/
def processMarkets (s : Settings) (firstCycle : Bool) (last : AnalysisData) (ex : String) :
    List (String × MarketData) →
      Except String (List (String × MarketData) × List Fragment × List ObjectsData)
  | [] => .ok ([], [], [])
  | (mk, mdata) :: t =>
    match processMarket s firstCycle last ex mk mdata with
    | .error er => .error er
    | .ok (mdata', st, data) =>
      match processMarkets s firstCycle last ex t with
      | .error er => .error er
      | .ok (t', frags, datas) =>
        .ok ((mk, mdata') :: t', st.fragments ++ frags, data.toList ++ datas)

/-- The `for exchange in ...` loop over the whole analysis structure. -/
def processExchanges (s : Settings) (firstCycle : Bool) (last : AnalysisData) :
    AnalysisData → Except String (AnalysisData × List Fragment × List ObjectsData)
  | [] => .ok ([], [], [])
  | (ex, exData) :: t =>
    match processMarkets s firstCycle last ex exData with
    | .error er => .error er
    | .ok (exData', frags, datas) =>
      match processExchanges s firstCycle last t with
      | .error er => .error er
      | .ok (t', frags2, datas2) =>
        .ok ((ex, exData') :: t', frags ++ frags2, datas ++ datas2)

/-- The dict merge `{**a, **b}`: keys of `a` in their order (values
overridden by `b` where present), then the keys of `b` not in `a` in their
order. -/
def stateMerge {κ α : Type} [DecidableEq κ] (a b : List (κ × α)) : List (κ × α) :=
  a.map (fun p => match lookupAssoc b p.1 with | some v => (p.1, v) | none => p)
    ++ b.filter (fun p => (lookupAssoc a p.1).isNone)

/-- Output of `emojize(":hotsprings: ", use_aliases=True)`; the emoji
library is external and the exact glyph is immaterial to every property
proved here, so the alias text stands in for it. -/
def hotImoji : String := ":hotsprings: "

/-- Output of `emojize(":snowman: ", use_aliases=True)`. -/
def coldImoji : String := ":snowman: "

/-- Output of `emojize(":ok_hand: ", use_aliases=True)`. -/
def primaryImoji : String := ":ok_hand: "

/-- Output of `emojize(":gem:", use_aliases=True)`. -/
def gemImoji : String := ":gem:"

/-- `Notifier.status_generator`. -/
def status_generator (primary : Bool) (state : String) : String :=
  let message := ""
  let message :=
    if primary ∧ (state = "cold" ∨ state = "hot") then message ++ primaryImoji
    else if state = "cold" then message ++ coldImoji
    else if state = "hot" then message ++ hotImoji
    else message
  let message := message ++ "\n"
  " " ++ message

/-- `Notifier.moving_avg_status` (the `key_value`/`crossed_value` parameters
are accepted but, as in the source, only used by commented-out lines). -/
def moving_avg_status (key_value crossed_value : String) (is_hot : Bool)
    (key_config crossed_config : IndicatorConfig) : String :=
  let message :=
    if is_hot then
      toString key_config.period_count ++ " up " ++ toString crossed_config.period_count
    else
      toString key_config.period_count ++ " down " ++ toString crossed_config.period_count
  message ++ status_generator false (if is_hot then "hot" else "cold")

/-- Decimal digit string to number; `none` on any non-digit character. -/
def digitsToNat (cs : List Char) : Option Nat :=
  cs.foldl
    (fun acc c => acc.bind fun n =>
      if c.isDigit then some (10 * n + (c.toNat - 48)) else none)
    (some 0)

/-- Python's `float(...)` on the decimal strings arising in this module
(optionally signed decimal literals); any other string raises `ValueError`,
which the embedding returns as an error. -/
def parseRat (s : String) : Except String ℚ :=
  let err : Except String ℚ :=
    .error ("ValueError: could not convert string to float: " ++ s)
  let signSplit : Bool × List Char :=
    match s.toList with
    | '-' :: t => (true, t)
    | cs => (false, cs)
  let neg := signSplit.1
  match splitChars '.' signSplit.2 with
  | [ipart] =>
    if ipart = [] then err else
    match digitsToNat ipart with
    | some n => .ok (if neg then -(n : ℚ) else (n : ℚ))
    | none => err
  | [ipart, fpart] =>
    if ipart = [] ∧ fpart = [] then err else
    match digitsToNat ipart, digitsToNat fpart with
    | some ni, some nf =>
      let q : ℚ := (ni : ℚ) + (nf : ℚ) / ((10 : ℚ) ^ fpart.length)
      .ok (if neg then -q else q)
    | _, _ => err
  | _ => err

/-- Dict indexing `l[k]` where a missing key raises `KeyError`. -/
def getKey {α : Type} (l : List (String × α)) (k : String) : Except String α :=
  match lookupAssoc l k with
  | some v => .ok v
  | none => .error ("KeyError: " ++ k)

/-- The body of the `try` block of `Notifier.notify_custom_telegram`
(source lines 509-568): assembly of the fixed composite message, with every
key access and float conversion that can raise made explicit. -/
def buildCompositeMessage (s : Settings) (objectsData : ObjectsData) :
    Except String String := do
  let message := gemImoji ++ " #" ++ objectsData.name ++ "\n"
  let message := message ++ s.period_data ++ " / " ++ objectsData.exchange ++ "\n"
  let ohlcv ← getKey objectsData.informants "ohlcv"
  let close ← getKey ohlcv.result "close"
  let message := message ++ "#Price -- " ++ close ++ " BTC \n\n"
  let mfi ← getKey objectsData.indicators "mfi"
  let mfiValue ← getKey mfi.values "mfi"
  let message := message ++ "MFI - is " ++ mfi.status ++ " (" ++ mfiValue ++ ") "
  let message := message ++ status_generator mfi.primary mfi.status
  let rsi ← getKey objectsData.indicators "rsi"
  let rsiValue ← getKey rsi.values "rsi"
  let message := message ++ "RSI - is " ++ rsi.status ++ " (" ++ rsiValue ++ ")"
  let message := message ++ status_generator rsi.primary rsi.status
  let stochRsi ← getKey objectsData.indicators "stoch_rsi"
  let stochRsiValue ← getKey stochRsi.values "stoch_rsi"
  let message := message ++ "STOCH_RSI - is " ++ stochRsi.status ++ " (" ++ stochRsiValue ++ ")"
  let message := message ++ status_generator stochRsi.primary stochRsi.status
  let macd ← getKey objectsData.indicators "macd"
  let macdValue ← getKey macd.values "macd"
  let message := message ++ "MACD - is " ++ macd.status ++ " (" ++ macdValue ++ ")"
  let message := message ++ status_generator macd.primary macd.status
  let bbResult ← getKey objectsData.informants "bollinger_bands"
  let upperbandStr ← getKey bbResult.result "upperband"
  let upperband ← parseRat upperbandStr
  let middlebandStr ← getKey bbResult.result "middleband"
  let middleband ← parseRat middlebandStr
  let lowerbandStr ← getKey bbResult.result "lowerband"
  let lowerband ← parseRat lowerbandStr
  let closeRat ← parseRat close
  let bollinger_bands_state :=
    bollinger_bands_state_calculation upperband middleband lowerband closeRat
  let message := message ++ "Bollinger Bands - is " ++ bollinger_bands_state
  let message := message ++ status_generator false bollinger_bands_state
  let ema ← getKey objectsData.crossed "ema"
  let mva_stat :=
    moving_avg_status ema.key_value ema.crossed_value ema.is_hot ema.key_config
      ema.crossed_config
  let message := message ++ "Moving Average (ema) " ++ mva_stat
  let ichimoku ← getKey objectsData.indicators "ichimoku"
  let message := message ++ "Ichimoku Cloud - is " ++ ichimoku.status
  let message := message ++ status_generator ichimoku.primary ichimoku.status
  return message

/-- Observable outcome of one `notify_custom_telegram` call: the built
message was handed to the telegram client (and printed), only printed
(telegram not configured), or the assembly raised and the exception was
caught and printed (`dropped`). -/
inductive CompositeOutcome where
  | notified (message : String)
  | printedOnly (message : String)
  | dropped (error : String)
deriving DecidableEq, Repr

/-- `Notifier.notify_custom_telegram`: the whole body sits in a
`try/except Exception` that prints the exception, so the call is total and
an assembly failure yields `dropped` with no notify. -/
def notify_custom_telegram (telegram_configured : Bool) (s : Settings)
    (objectsData : ObjectsData) : CompositeOutcome :=
  match buildCompositeMessage s objectsData with
  | .ok message =>
    if telegram_configured then .notified message else .printedOnly message
  | .error er => .dropped er

/-- The message handed to the telegram client by a composite outcome, if
any. -/
def notifySent : CompositeOutcome → Option String
  | .notified message => some message
  | .printedOnly _ => none
  | .dropped _ => none

/-- Result of one `_indicator_message_templater` call: the rendered
fragments (whose concatenation is the returned `new_message`), the composite
invocations with their outcomes, the status-mutated `new_analysis`, and the
merged `self.last_analysis`. -/
structure TemplaterResult where
  fragments : List Fragment
  composites : List (ObjectsData × CompositeOutcome)
  mutated : AnalysisData
  newLast : AnalysisData
deriving Repr

/-- `Notifier._indicator_message_templater`.  On the first cycle
(`self.last_analysis` empty/falsy) the source aliases `self.last_analysis`
to `new_analysis` (lines 269-270); the per-record consequence is modelled in
`indicatorStep`, and the final merge `{**self.last_analysis, **new_analysis}`
(line 443) merges the mutated structure with itself on that cycle. -/
def indicator_message_templater (s : Settings) (telegram_configured : Bool)
    (last_analysis new_analysis : AnalysisData) : Except String TemplaterResult :=
  let firstCycle := last_analysis.isEmpty
  match processExchanges s firstCycle last_analysis new_analysis with
  | .error er => .error er
  | .ok (new', frags, datas) =>
    .ok { fragments := frags
        , composites := datas.map (fun d => (d, notify_custom_telegram telegram_configured s d))
        , mutated := new'
        , newLast := stateMerge (if firstCycle then new' else last_analysis) new' }

/-- The per-entry webhook replacement (source lines 218-222):
`analysis['result'].to_dict(orient='records')`, then the last row if any
rows exist, else the empty string; a non-record entry raises. -/
def webhookEntry (e : Entry) : Except String Entry :=
  match e with
  | .record r =>
    match r.result.getLast? with
    | some row => .ok (.lastRow row)
    | none => .ok .emptyStr
  | _ => .error "KeyError: result"

/-- Structure-preserving effectful map over a list, stopping at the first
error (the in-place mutation loop of the webhook path). -/
def mapExceptList {α : Type} (f : α → Except String α) :
    List α → Except String (List α)
  | [] => .ok []
  | x :: t =>
    match f x with
    | .error er => .error er
    | .ok x' =>
      match mapExceptList f t with
      | .error er => .error er
      | .ok t' => .ok (x' :: t')

/-- Structure-preserving effectful map over the values of an ordered
dictionary. -/
def mapExceptAssoc {κ α : Type} (f : α → Except String α) :
    List (κ × α) → Except String (List (κ × α))
  | [] => .ok []
  | (k, v) :: t =>
    match f v with
    | .error er => .error er
    | .ok v' =>
      match mapExceptAssoc f t with
      | .error er => .error er
      | .ok t' => .ok ((k, v') :: t')

/-- The nested in-place mutation loops of `Notifier.notify_webhook` (source
lines 213-222): every entry of the analysis structure is replaced by its
webhook form. -/
def webhookTransform : AnalysisData → Except String AnalysisData :=
  mapExceptAssoc (mapExceptAssoc (mapExceptAssoc (mapExceptAssoc
    (mapExceptList webhookEntry))))

/-- `Notifier.notify_webhook`: when configured, mutate `new_analysis` in
place and hand the mutated structure to `self.webhook_client.notify`.
Returns the final state of `new_analysis` together with the payload passed
to `notify` (if any). -/
def notify_webhook (webhook_configured : Bool) (new_analysis : AnalysisData) :
    Except String (AnalysisData × Option AnalysisData) :=
  if webhook_configured then
    match webhookTransform new_analysis with
    | .error er => .error er
    | .ok transformed => .ok (transformed, some transformed)
  else
    .ok (new_analysis, none)

/-- Entry with its `status` key forgotten, for stating which part of a
record processing may change. -/
def eraseEntryStatus : Entry → Entry
  | .record r => .record { r with status := none }
  | e => e

/-- The whole analysis structure with all `status` keys forgotten. -/
def eraseAnalysisStatus (a : AnalysisData) : AnalysisData :=
  a.map (fun p => (p.1, p.2.map (fun q => (q.1, q.2.map (fun f =>
    (f.1, f.2.map (fun i => (i.1, i.2.map eraseEntryStatus))))))))

/-- Spec-side eligibility rule, written from the words of the Debounce
Policy section of the specification for comparison with the code path: the
instance is eligible iff its current status is hot or cold, alerting is
enabled, and the frequency is `always`, or `once` with a status different
from the last recorded one. -/
def specEligible (status last_status : String) (alert_enabled : Bool)
    (alert_frequency : String) : Prop :=
  (status = "hot" ∨ status = "cold") ∧ alert_enabled = true ∧
    (alert_frequency = "always" ∨ (alert_frequency = "once" ∧ status ≠ last_status))

instance (status last_status : String) (alert_enabled : Bool) (alert_frequency : String) :
    Decidable (specEligible status last_status alert_enabled alert_frequency) := by
  unfold specEligible
  infer_instance

/-- C10: `bollinger_bands_state_calculation` returns `cold` iff the close is
above the middle band and closer to the upper band than to the middle band;
`hot` iff the close is below the middle band and closer to the lower band
than to the middle band; `neutral` in every other case, in particular
whenever the close equals the middle band. -/
theorem C10_bollinger_state_characterization (u m l c : ℚ) :
    (bollinger_bands_state_calculation u m l c = "cold" ↔ (c > m ∧ u - c < c - m))
    ∧ (bollinger_bands_state_calculation u m l c = "hot" ↔ (c < m ∧ c - l < m - c))
    ∧ (¬(c > m ∧ u - c < c - m) → ¬(c < m ∧ c - l < m - c) →
        bollinger_bands_state_calculation u m l c = "neutral")
    ∧ (c = m → bollinger_bands_state_calculation u m l c = "neutral") := by
  by_cases h1 : m < c
  · by_cases h3 : u - c < c - m
    · have hres : bollinger_bands_state_calculation u m l c = "cold" := by
        simp [bollinger_bands_state_calculation, h1, h3]
      rw [hres]
      refine ⟨iff_of_true rfl ⟨h1, h3⟩,
        iff_of_false (by decide) (fun hc => absurd (h1.trans hc.1) (lt_irrefl m)),
        fun hn _ => absurd ⟨h1, h3⟩ hn,
        fun he => absurd (lt_of_lt_of_eq h1 he) (lt_irrefl m)⟩
    · have hres : bollinger_bands_state_calculation u m l c = "neutral" := by
        simp [bollinger_bands_state_calculation, h1, h3]
      rw [hres]
      refine ⟨iff_of_false (by decide) (fun hc => h3 hc.2),
        iff_of_false (by decide) (fun hc => absurd (h1.trans hc.1) (lt_irrefl m)),
        fun _ _ => rfl, fun _ => rfl⟩
  · by_cases h2 : c < m
    · by_cases h3 : c - l < m - c
      · have hres : bollinger_bands_state_calculation u m l c = "hot" := by
          simp [bollinger_bands_state_calculation, h1, h2, h3]
        rw [hres]
        refine ⟨iff_of_false (by decide) (fun hc => h1 hc.1),
          iff_of_true rfl ⟨h2, h3⟩,
          fun _ hn => absurd ⟨h2, h3⟩ hn,
          fun he => absurd (lt_of_lt_of_eq h2 he.symm) (lt_irrefl c)⟩
      · have hres : bollinger_bands_state_calculation u m l c = "neutral" := by
          simp [bollinger_bands_state_calculation, h1, h2, h3]
        rw [hres]
        refine ⟨iff_of_false (by decide) (fun hc => h1 hc.1),
          iff_of_false (by decide) (fun hc => h3 hc.2),
          fun _ _ => rfl, fun _ => rfl⟩
    · have hres : bollinger_bands_state_calculation u m l c = "neutral" := by
        simp [bollinger_bands_state_calculation, h1, h2]
      rw [hres]
      refine ⟨iff_of_false (by decide) (fun hc => h1 hc.1),
        iff_of_false (by decide) (fun hc => h2 hc.1),
        fun _ _ => rfl, fun _ => rfl⟩

/-- C10 witness: the three outcomes at concrete rational inputs, via the
characterization theorem. -/
theorem C10_bollinger_state_characterization_witness :
    bollinger_bands_state_calculation 10 5 0 8 = "cold"
    ∧ bollinger_bands_state_calculation 10 5 0 1 = "hot"
    ∧ bollinger_bands_state_calculation 10 5 0 5 = "neutral" :=
  ⟨(C10_bollinger_state_characterization 10 5 0 8).1.mpr (by norm_num),
   ((C10_bollinger_state_characterization 10 5 0 1).2.1).mpr (by norm_num),
   ((C10_bollinger_state_characterization 10 5 0 5).2.2.2) rfl⟩

/-- Helper: `should_alert` is true iff alerting is enabled and the frequency
policy passes, provided the frequency is one of the two configured values. -/
theorem shouldAlert_true_iff (config : IndicatorConfig) (last_status status : String)
    (hfreq : config.alert_frequency = "always" ∨ config.alert_frequency = "once") :
    shouldAlert config last_status status = true ↔
      (config.alert_enabled = true ∧ (config.alert_frequency = "always" ∨
        (config.alert_frequency = "once" ∧ status ≠ last_status))) := by
  simp only [shouldAlert]
  by_cases he : config.alert_enabled = false
  · rw [if_pos he, he]
    simp
  · have he' : config.alert_enabled = true := by
      revert he; cases config.alert_enabled <;> simp
    rw [if_neg he, he']
    rcases hfreq with hf | hf <;> rw [hf]
    · rw [if_neg (by simp : ¬(("always" : String) = "once" ∧ last_status = status))]
      simp
    · by_cases hl : last_status = status
      · rw [if_pos ⟨rfl, hl⟩]
        simp [hl]
      · rw [if_neg (fun hand => hl hand.2)]
        simp
        exact fun h => hl h.symm

/-- Helper: the alert branch condition of source line 406 is exactly the
spec-side eligibility rule, for a well-formed frequency. -/
theorem alert_condition_iff (config : IndicatorConfig) (ls : String) (latest : Row)
    (hfreq : config.alert_frequency = "always" ∨ config.alert_frequency = "once") :
    ((latest.is_hot = true ∨ latest.is_cold = true) ∧
        shouldAlert config ls (statusOf latest) = true)
      ↔ specEligible (statusOf latest) ls config.alert_enabled config.alert_frequency := by
  have hhc : (statusOf latest = "hot" ∨ statusOf latest = "cold")
      ↔ (latest.is_hot = true ∨ latest.is_cold = true) := by
    cases hh : latest.is_hot <;> cases hc : latest.is_cold <;> simp [statusOf, hh, hc]
  rw [specEligible, shouldAlert_true_iff config ls (statusOf latest) hfreq]
  rw [hhc]

/-- Helper: full characterization of one `indicators`-family record step:
tally updates, the status write-back, and the two outcomes of the alert
branch, as a function of the raw branch condition. -/
theorem processEntry_indicators_char (firstCycle : Bool) (last : AnalysisData)
    (ex mk base quote ind : String) (idx : Nat) (mdata : MarketData) (st : PairState)
    (r : AnalysisRecord) (latest : Row) (st' : PairState) (e' : Entry)
    (hlast : r.result.getLast? = some latest)
    (hrun : processEntry firstCycle last ex mk base quote .indicators ind idx mdata st
        (.record r) = .ok (st', e')) :
    st'.hotCount = (if latest.is_hot = true ∧ ind ≠ "ichimoku" then st.hotCount + 1
      else st.hotCount)
    ∧ st'.couldCount = (if ¬latest.is_hot = true ∧ latest.is_cold = true ∧ ind ≠ "ichimoku"
        then st.couldCount + 1 else st.couldCount)
    ∧ e' = .record { r with status := some (statusOf latest) }
    ∧ (((latest.is_hot = true ∨ latest.is_cold = true) ∧
          shouldAlert r.config (if firstCycle then statusOf latest
            else lookupLastStatus last ex mk .indicators ind idx) (statusOf latest) = true) →
        (st'.fragments.length = st.fragments.length + 1
          ∧ st'.primaryIndicators = st.primaryIndicators ++ [ind]
          ∧ st'.sendNotification = true))
    ∧ (¬((latest.is_hot = true ∨ latest.is_cold = true) ∧
          shouldAlert r.config (if firstCycle then statusOf latest
            else lookupLastStatus last ex mk .indicators ind idx) (statusOf latest) = true) →
        (st'.fragments = st.fragments ∧ st'.primaryIndicators = st.primaryIndicators
          ∧ st'.sendNotification = st.sendNotification)) := by
  simp only [processEntry, hlast] at hrun
  cases hv : collectValues latest [] r.config.signal with
  | error er => rw [hv] at hrun; exact absurd hrun (by simp)
  | ok values =>
    rw [hv] at hrun
    simp only [Except.ok.injEq] at hrun
    have hst : st' = (indicatorStep firstCycle last ex mk base quote ind idx st r latest values).1 :=
      (congrArg Prod.fst hrun).symm
    have hee : e' = (indicatorStep firstCycle last ex mk base quote ind idx st r latest values).2 :=
      (congrArg Prod.snd hrun).symm
    subst hst
    subst hee
    clear hrun
    by_cases hC : (latest.is_hot = true ∨ latest.is_cold = true) ∧
        shouldAlert r.config (if firstCycle then statusOf latest
          else lookupLastStatus last ex mk .indicators ind idx) (statusOf latest) = true
    · simp only [indicatorStep]
      rw [if_pos hC]
      exact ⟨rfl, rfl, rfl, fun _ => ⟨by simp, rfl, rfl⟩, fun hn => absurd hC hn⟩
    · simp only [indicatorStep]
      rw [if_neg hC]
      exact ⟨rfl, rfl, rfl, fun hcc => absurd hcc hC, fun _ => ⟨rfl, rfl, rfl⟩⟩

/-- C1: an `indicators`-family instance renders an alert fragment (and is
appended to `primaryIndicators`) iff its current status is hot or cold,
alerting is enabled, and the frequency is `always`, or `once` with a current
status different from the last-recorded one (the value the debounce lookup
returns: the just-written status on the first, aliased cycle, otherwise the
recorded status at the coordinate, a missing coordinate yielding the empty
string); a neutral instance is never eligible. -/
theorem C1_alert_eligibility
    (firstCycle : Bool) (last : AnalysisData) (ex mk base quote ind : String) (idx : Nat)
    (mdata : MarketData) (st : PairState) (r : AnalysisRecord) (latest : Row)
    (st' : PairState) (e' : Entry)
    (hlast : r.result.getLast? = some latest)
    (hsig : r.config.signal ≠ [])
    (hfreq : r.config.alert_frequency = "always" ∨ r.config.alert_frequency = "once")
    (hrun : processEntry firstCycle last ex mk base quote .indicators ind idx mdata st
        (.record r) = .ok (st', e')) :
    ((st'.fragments.length = st.fragments.length + 1 ∧
      st'.primaryIndicators = st.primaryIndicators ++ [ind])
      ↔ specEligible (statusOf latest)
          (if firstCycle then statusOf latest
           else lookupLastStatus last ex mk .indicators ind idx)
          r.config.alert_enabled r.config.alert_frequency)
    ∧ (¬ specEligible (statusOf latest)
          (if firstCycle then statusOf latest
           else lookupLastStatus last ex mk .indicators ind idx)
          r.config.alert_enabled r.config.alert_frequency →
        st'.fragments = st.fragments ∧ st'.primaryIndicators = st.primaryIndicators)
    ∧ (statusOf latest = "neutral" →
        st'.fragments = st.fragments ∧ st'.primaryIndicators = st.primaryIndicators) := by
  obtain ⟨-, -, -, hpos, hneg⟩ := processEntry_indicators_char firstCycle last ex mk base
    quote ind idx mdata st r latest st' e' hlast hrun
  have hiff := alert_condition_iff r.config
    (if firstCycle then statusOf latest else lookupLastStatus last ex mk .indicators ind idx)
    latest hfreq
  by_cases hC : specEligible (statusOf latest)
      (if firstCycle then statusOf latest
       else lookupLastStatus last ex mk .indicators ind idx)
      r.config.alert_enabled r.config.alert_frequency
  · obtain ⟨h1, h2, -⟩ := hpos (hiff.mpr hC)
    refine ⟨iff_of_true ⟨h1, h2⟩ hC, fun hn => absurd hC hn, fun hneutral => ?_⟩
    exfalso
    rcases hC.1 with h | h <;> rw [hneutral] at h <;> exact absurd h (by decide)
  · obtain ⟨h1, h2, -⟩ := hneg (fun hcI => hC (hiff.mp hcI))
    refine ⟨iff_of_false ?_ hC, fun _ => ⟨h1, h2⟩, fun _ => ⟨h1, h2⟩⟩
    rintro ⟨hlen, -⟩
    rw [h1] at hlen
    omega
/-- C1 witness: a hot record with `alert_frequency = "always"`, alerting
enabled and no recorded last status is eligible at a concrete coordinate,
via the eligibility theorem. -/
theorem C1_alert_eligibility_witness : specEligible "hot" "" true "always" :=
  ((C1_alert_eligibility false [] "e" "B/Q" "B" "Q" "rsi" 0 [] initPairState
      { config := { signal := ["rsi"], alert_enabled := true, alert_frequency := "always",
                    key_signal := "", crossed_signal := "", key_indicator_index := 0,
                    crossed_indicator_index := 0, period_count := 0 },
        result := [{ is_hot := true, is_cold := false, signals := [("rsi", "20.00000000")] }],
        status := none }
      { is_hot := true, is_cold := false, signals := [("rsi", "20.00000000")] }
      _ _ rfl (by decide) (Or.inl rfl) rfl).1.mp (by decide))

/-- C3 (amended): on the very first cycle `self.last_analysis` is set to the
current analysis object itself, and each record's status is written before
the debounce lookup reads the same coordinate, so the last-recorded status
always equals the current status; hence with `alert_frequency = "once"`
every instance is suppressed on cycle 1, while with
`alert_frequency = "always"` an enabled hot/cold instance still renders a
fragment. -/
theorem C3_first_cycle_debounce
    (last : AnalysisData) (ex mk base quote ind : String) (idx : Nat)
    (mdata : MarketData) (st : PairState) (r : AnalysisRecord) (latest : Row)
    (st' : PairState) (e' : Entry)
    (hlast : r.result.getLast? = some latest)
    (hsig : r.config.signal ≠ [])
    (hrun : processEntry true last ex mk base quote .indicators ind idx mdata st
        (.record r) = .ok (st', e')) :
    (r.config.alert_frequency = "once" →
      st'.fragments = st.fragments ∧ st'.primaryIndicators = st.primaryIndicators)
    ∧ (r.config.alert_frequency = "always" → r.config.alert_enabled = true →
        (latest.is_hot = true ∨ latest.is_cold = true) →
        st'.fragments.length = st.fragments.length + 1) := by
  obtain ⟨-, -, -, hpos, hneg⟩ := processEntry_indicators_char true last ex mk base
    quote ind idx mdata st r latest st' e' hlast hrun
  constructor
  · intro hfo
    have hna : ¬ ((latest.is_hot = true ∨ latest.is_cold = true) ∧
        shouldAlert r.config (if (true : Bool) then statusOf latest
          else lookupLastStatus last ex mk .indicators ind idx) (statusOf latest) = true) := by
      rintro ⟨-, hsa⟩
      simp [shouldAlert, hfo] at hsa
    obtain ⟨h1, h2, -⟩ := hneg hna
    exact ⟨h1, h2⟩
  · intro hfa he hhc
    have hc : (latest.is_hot = true ∨ latest.is_cold = true) ∧
        shouldAlert r.config (if (true : Bool) then statusOf latest
          else lookupLastStatus last ex mk .indicators ind idx) (statusOf latest) = true :=
      ⟨hhc, by simp [shouldAlert, hfa, he]⟩
    exact (hpos hc).1

/-- C3 amended-theorem witness: at a concrete hot, enabled, `once` record on
the first cycle no fragment is produced, and with `always` one is, via the
first-cycle theorem. -/
theorem C3_first_cycle_debounce_witness :
    (initPairState.fragments = initPairState.fragments
      ∧ initPairState.primaryIndicators = initPairState.primaryIndicators) :=
  ((C3_first_cycle_debounce [] "e" "B/Q" "B" "Q" "rsi" 0 [] initPairState
      { config := { signal := ["rsi"], alert_enabled := true, alert_frequency := "once",
                    key_signal := "", crossed_signal := "", key_indicator_index := 0,
                    crossed_indicator_index := 0, period_count := 0 },
        result := [{ is_hot := true, is_cold := false, signals := [("rsi", "20.00000000")] }],
        status := none }
      { is_hot := true, is_cold := false, signals := [("rsi", "20.00000000")] }
      _ _ rfl (by decide) rfl).1 rfl)

/-- C5: an `indicators`-family instance named `ichimoku` never increments
the hot/cold tallies even when hot or cold, any other instance increments
the matching tally by one, and an eligible hot/cold `ichimoku` instance
still renders a per-instance alert fragment. -/
theorem C5_ichimoku_tally
    (firstCycle : Bool) (last : AnalysisData) (ex mk base quote ind : String) (idx : Nat)
    (mdata : MarketData) (st : PairState) (r : AnalysisRecord) (latest : Row)
    (st' : PairState) (e' : Entry)
    (hlast : r.result.getLast? = some latest)
    (hsig : r.config.signal ≠ [])
    (hrun : processEntry firstCycle last ex mk base quote .indicators ind idx mdata st
        (.record r) = .ok (st', e')) :
    (ind = "ichimoku" → st'.hotCount = st.hotCount ∧ st'.couldCount = st.couldCount)
    ∧ (ind ≠ "ichimoku" → latest.is_hot = true →
        st'.hotCount = st.hotCount + 1 ∧ st'.couldCount = st.couldCount)
    ∧ (ind ≠ "ichimoku" → latest.is_hot = false → latest.is_cold = true →
        st'.couldCount = st.couldCount + 1 ∧ st'.hotCount = st.hotCount)
    ∧ (latest.is_hot = false → latest.is_cold = false →
        st'.hotCount = st.hotCount ∧ st'.couldCount = st.couldCount)
    ∧ (ind = "ichimoku" →
        specEligible (statusOf latest)
          (if firstCycle then statusOf latest
           else lookupLastStatus last ex mk .indicators ind idx)
          r.config.alert_enabled r.config.alert_frequency →
        st'.fragments.length = st.fragments.length + 1) := by
  obtain ⟨hh, hcc, -, hpos, -⟩ := processEntry_indicators_char firstCycle last ex mk base
    quote ind idx mdata st r latest st' e' hlast hrun
  refine ⟨?_, ?_, ?_, ?_, ?_⟩
  · intro hich; rw [hh, hcc]; simp [hich]
  · intro hne hhot; rw [hh, hcc]; simp [hne, hhot]
  · intro hne hhot hcold; rw [hh, hcc]; simp [hne, hhot, hcold]
  · intro hhot hcold; rw [hh, hcc]; simp [hhot, hcold]
  · intro hich hspec
    have hfreq : r.config.alert_frequency = "always" ∨ r.config.alert_frequency = "once" :=
      hspec.2.2.elim Or.inl (fun h => Or.inr h.1)
    exact (hpos ((alert_condition_iff r.config _ latest hfreq).mpr hspec)).1

/-- C5 witness: a hot, enabled, `always` ichimoku record leaves both tallies
unchanged and still appends one fragment, via the tally theorem. -/
theorem C5_ichimoku_tally_witness :
    (initPairState.hotCount = initPairState.hotCount
      ∧ initPairState.couldCount = initPairState.couldCount)
    ∧ 1 = initPairState.fragments.length + 1 := by
  have h := C5_ichimoku_tally false [] "e" "B/Q" "B" "Q" "ichimoku" 0 [] initPairState
      { config := { signal := ["x"], alert_enabled := true, alert_frequency := "always",
                    key_signal := "", crossed_signal := "", key_indicator_index := 0,
                    crossed_indicator_index := 0, period_count := 0 },
        result := [{ is_hot := true, is_cold := false, signals := [("x", "1.00000000")] }],
        status := none }
      { is_hot := true, is_cold := false, signals := [("x", "1.00000000")] }
      _ _ rfl (by decide) rfl
  exact ⟨h.1 rfl, h.2.2.2.2 rfl (by decide)⟩

/-- Helper: a crossover step only touches the `crosed` flag and
`crossedData`. -/
theorem crossoverStep_state (st : PairState) (r : AnalysisRecord) (latest : Row)
    (mdata : MarketData) (st' : PairState) (e' : Entry)
    (hrun : crossoverStep st r latest mdata = .ok (st', e')) :
    st'.sendNotification = st.sendNotification
    ∧ st'.primaryIndicators = st.primaryIndicators
    ∧ st'.hotCount = st.hotCount ∧ st'.couldCount = st.couldCount
    ∧ st'.fragments = st.fragments ∧ e' = .record r := by
  simp only [crossoverStep] at hrun
  cases h1 : lookupAssoc latest.signals
      (r.config.key_signal ++ "_" ++ toString r.config.key_indicator_index) with
  | none => rw [h1] at hrun; exact absurd hrun (by simp)
  | some key_value =>
    rw [h1] at hrun
    cases h2 : lookupAssoc latest.signals
        (r.config.crossed_signal ++ "_" ++ toString r.config.crossed_indicator_index) with
    | none => rw [h2] at hrun; exact absurd hrun (by simp)
    | some crossed_value =>
      rw [h2] at hrun
      cases h3 : lookupInformantConfig mdata
          (String.mk ((r.config.key_signal ++ "_" ++
            toString r.config.key_indicator_index).toList.take
              ((r.config.key_signal ++ "_" ++
                toString r.config.key_indicator_index).toList.length - 2)))
          0 with
      | none => rw [h3] at hrun; exact absurd hrun (by simp)
      | some key_config =>
        rw [h3] at hrun
        cases h4 : lookupInformantConfig mdata
            (String.mk ((r.config.key_signal ++ "_" ++
              toString r.config.key_indicator_index).toList.take
                ((r.config.key_signal ++ "_" ++
                  toString r.config.key_indicator_index).toList.length - 2)))
            1 with
        | none => rw [h4] at hrun; exact absurd hrun (by simp)
        | some crossed_config =>
          rw [h4] at hrun
          simp only [Except.ok.injEq, Prod.mk.injEq] at hrun
          obtain ⟨hst, he⟩ := hrun
          subst hst
          exact ⟨rfl, rfl, rfl, rfl, rfl, he.symm⟩

/-- Helper: one entry step preserves the invariant that `sendNotification`
is set exactly when `primaryIndicators` is non-empty. -/
theorem processEntry_sendInv (firstCycle : Bool) (last : AnalysisData)
    (ex mk base quote : String) (fam : IndicatorFamily) (ind : String) (idx : Nat)
    (mdata : MarketData) (st : PairState) (e : Entry) (st' : PairState) (e' : Entry)
    (hrun : processEntry firstCycle last ex mk base quote fam ind idx mdata st e
      = .ok (st', e'))
    (hinv : st.sendNotification = true ↔ st.primaryIndicators ≠ []) :
    st'.sendNotification = true ↔ st'.primaryIndicators ≠ [] := by
  cases e with
  | lastRow _ => exact absurd hrun (by simp [processEntry])
  | emptyStr => exact absurd hrun (by simp [processEntry])
  | record r =>
    cases hlast : r.result.getLast? with
    | none =>
      simp only [processEntry, hlast, Except.ok.injEq, Prod.mk.injEq] at hrun
      obtain ⟨hst, -⟩ := hrun
      subst hst
      exact hinv
    | some latest =>
      cases fam with
      | indicators =>
        obtain ⟨-, -, -, hpos, hneg⟩ := processEntry_indicators_char firstCycle last ex mk
          base quote ind idx mdata st r latest st' e' hlast hrun
        by_cases hC : (latest.is_hot = true ∨ latest.is_cold = true) ∧
            shouldAlert r.config (if firstCycle then statusOf latest
              else lookupLastStatus last ex mk .indicators ind idx) (statusOf latest) = true
        · obtain ⟨-, hpr, hsend⟩ := hpos hC
          rw [hsend, hpr]
          simp
        · obtain ⟨-, hpr, hsend⟩ := hneg hC
          rw [hsend, hpr]
          exact hinv
      | informants =>
        simp only [processEntry, hlast] at hrun
        cases hv : collectValues latest [] r.config.signal with
        | error er => rw [hv] at hrun; exact absurd hrun (by simp)
        | ok values =>
          rw [hv] at hrun
          simp only [Except.ok.injEq, Prod.mk.injEq] at hrun
          obtain ⟨hst, -⟩ := hrun
          subst hst
          exact hinv
      | crossovers =>
        simp only [processEntry, hlast] at hrun
        obtain ⟨hsend, hpr, -⟩ := crossoverStep_state st r latest mdata st' e' hrun
        rw [hsend, hpr]
        exact hinv

/-- Helper: the entries loop preserves the send/primary invariant. -/
theorem processEntries_sendInv (firstCycle : Bool) (last : AnalysisData)
    (ex mk base quote : String) (fam : IndicatorFamily) (ind : String)
    (mdata : MarketData) (es : List Entry) :
    ∀ (idx : Nat) (st st' : PairState) (es' : List Entry),
      processEntries firstCycle last ex mk base quote fam ind mdata idx st es
        = .ok (st', es') →
      (st.sendNotification = true ↔ st.primaryIndicators ≠ []) →
      (st'.sendNotification = true ↔ st'.primaryIndicators ≠ []) := by
  induction es with
  | nil =>
    intro idx st st' es' hrun hinv
    simp only [processEntries, Except.ok.injEq, Prod.mk.injEq] at hrun
    obtain ⟨hst, -⟩ := hrun
    subst hst
    exact hinv
  | cons e t ih =>
    intro idx st st' es' hrun hinv
    simp only [processEntries] at hrun
    cases h1 : processEntry firstCycle last ex mk base quote fam ind idx mdata st e with
    | error er => rw [h1] at hrun; exact absurd hrun (by simp)
    | ok p =>
      obtain ⟨st1, e1⟩ := p
      rw [h1] at hrun
      dsimp only at hrun
      cases h2 : processEntries firstCycle last ex mk base quote fam ind mdata (idx + 1) st1 t with
      | error er => rw [h2] at hrun; exact absurd hrun (by simp)
      | ok q =>
        obtain ⟨st2, t2⟩ := q
        rw [h2] at hrun
        simp only [Except.ok.injEq, Prod.mk.injEq] at hrun
        obtain ⟨hst, -⟩ := hrun
        subst hst
        exact ih (idx + 1) st1 st2 t2 h2
          (processEntry_sendInv firstCycle last ex mk base quote fam ind idx mdata st e st1
            e1 h1 hinv)

/-- Helper: the indicators loop preserves the send/primary invariant. -/
theorem processIndicators_sendInv (firstCycle : Bool) (last : AnalysisData)
    (ex mk base quote : String) (fam : IndicatorFamily) (mdata : MarketData)
    (inds : List (String × List Entry)) :
    ∀ (st st' : PairState) (inds' : List (String × List Entry)),
      processIndicators firstCycle last ex mk base quote fam mdata st inds
        = .ok (st', inds') →
      (st.sendNotification = true ↔ st.primaryIndicators ≠ []) →
      (st'.sendNotification = true ↔ st'.primaryIndicators ≠ []) := by
  induction inds with
  | nil =>
    intro st st' inds' hrun hinv
    simp only [processIndicators, Except.ok.injEq, Prod.mk.injEq] at hrun
    obtain ⟨hst, -⟩ := hrun
    subst hst
    exact hinv
  | cons p t ih =>
    obtain ⟨ind, es⟩ := p
    intro st st' inds' hrun hinv
    simp only [processIndicators] at hrun
    cases h1 : processEntries firstCycle last ex mk base quote fam ind mdata 0 st es with
    | error er => rw [h1] at hrun; exact absurd hrun (by simp)
    | ok p1 =>
      obtain ⟨st1, es1⟩ := p1
      rw [h1] at hrun
      dsimp only at hrun
      cases h2 : processIndicators firstCycle last ex mk base quote fam mdata st1 t with
      | error er => rw [h2] at hrun; exact absurd hrun (by simp)
      | ok q =>
        obtain ⟨st2, t2⟩ := q
        rw [h2] at hrun
        simp only [Except.ok.injEq, Prod.mk.injEq] at hrun
        obtain ⟨hst, -⟩ := hrun
        subst hst
        exact ih st1 st2 t2 h2
          (processEntries_sendInv firstCycle last ex mk base quote fam ind mdata es 0 st st1
            es1 h1 hinv)

/-- Helper: the families loop preserves the send/primary invariant. -/
theorem processFamilies_sendInv (firstCycle : Bool) (last : AnalysisData)
    (ex mk base quote : String) (mdata : MarketData)
    (fams : List (IndicatorFamily × List (String × List Entry))) :
    ∀ (st st' : PairState) (fams' : MarketData),
      processFamilies firstCycle last ex mk base quote mdata st fams = .ok (st', fams') →
      (st.sendNotification = true ↔ st.primaryIndicators ≠ []) →
      (st'.sendNotification = true ↔ st'.primaryIndicators ≠ []) := by
  induction fams with
  | nil =>
    intro st st' fams' hrun hinv
    simp only [processFamilies, Except.ok.injEq, Prod.mk.injEq] at hrun
    obtain ⟨hst, -⟩ := hrun
    subst hst
    exact hinv
  | cons p t ih =>
    obtain ⟨fam, inds⟩ := p
    intro st st' fams' hrun hinv
    simp only [processFamilies] at hrun
    cases h1 : processIndicators firstCycle last ex mk base quote fam mdata st inds with
    | error er => rw [h1] at hrun; exact absurd hrun (by simp)
    | ok p1 =>
      obtain ⟨st1, inds1⟩ := p1
      rw [h1] at hrun
      dsimp only at hrun
      cases h2 : processFamilies firstCycle last ex mk base quote mdata st1 t with
      | error er => rw [h2] at hrun; exact absurd hrun (by simp)
      | ok q =>
        obtain ⟨st2, t2⟩ := q
        rw [h2] at hrun
        simp only [Except.ok.injEq, Prod.mk.injEq] at hrun
        obtain ⟨hst, -⟩ := hrun
        subst hst
        exact ih st1 st2 t2 h2
          (processIndicators_sendInv firstCycle last ex mk base quote fam mdata inds st st1
            inds1 h1 hinv)

/-- C2: for every (exchange, market) pair, the composite alert path
(`notify_custom_telegram`) is invoked iff at least two eligible primary
indicators accumulated and the hot tally meets `max_hot_notification` or the
cold tally meets `max_cold_notification` (the `sendNotification` conjunct of
the source condition is implied by the two-primaries requirement). -/
theorem C2_composite_trigger (s : Settings) (firstCycle : Bool) (last : AnalysisData)
    (ex mk : String) (mdata mdata' : MarketData) (st : PairState)
    (comp : Option ObjectsData)
    (hrun : processMarket s firstCycle last ex mk mdata = .ok (mdata', st, comp)) :
    comp.isSome = true ↔
      (2 ≤ st.primaryIndicators.length ∧
        (s.max_hot_notification ≤ (st.hotCount : Int) ∨
         s.max_cold_notification ≤ (st.couldCount : Int))) := by
  simp only [processMarket] at hrun
  cases hs : splitMarket mk with
  | error er => rw [hs] at hrun; exact absurd hrun (by simp)
  | ok bq =>
    obtain ⟨base, quote⟩ := bq
    rw [hs] at hrun
    dsimp only at hrun
    cases hf : processFamilies firstCycle last ex mk base quote mdata initPairState mdata with
    | error er => rw [hf] at hrun; exact absurd hrun (by simp)
    | ok p =>
      obtain ⟨st0, mdata0⟩ := p
      rw [hf] at hrun
      simp only [Except.ok.injEq, Prod.mk.injEq] at hrun
      obtain ⟨-, hst, hcomp⟩ := hrun
      subst hst
      have hinv : st0.sendNotification = true ↔ st0.primaryIndicators ≠ [] :=
        processFamilies_sendInv firstCycle last ex mk base quote mdata mdata initPairState
          st0 mdata0 hf (by simp [initPairState])
      subst hcomp
      by_cases hfired : st0.sendNotification = true ∧ 2 ≤ st0.primaryIndicators.length ∧
          (s.max_hot_notification ≤ (st0.hotCount : Int) ∨
           s.max_cold_notification ≤ (st0.couldCount : Int))
      · rw [if_pos hfired]
        simp only [Option.isSome_some]
        exact iff_of_true trivial ⟨hfired.2.1, hfired.2.2⟩
      · rw [if_neg hfired]
        simp only [Option.isSome_none]
        constructor
        · intro h; exact absurd h (by decide)
        · rintro ⟨hlen, hthr⟩
          exfalso
          refine hfired ⟨hinv.mpr ?_, hlen, hthr⟩
          intro hnil
          rw [hnil] at hlen
          exact absurd hlen (by decide)

/-- C2 witness: two eligible hot indicators with `max_hot_notification = 1`
fire the composite path, via the trigger theorem. -/
theorem C2_composite_trigger_witness :
    (2 : Nat) ≤ 2 ∧ ((1 : Int) ≤ ((2 : Nat) : Int) ∨ (99 : Int) ≤ ((0 : Nat) : Int)) := by
  rcases hpm : processMarket
      { max_hot_notification := 1, max_cold_notification := 99, period_data := "1h" }
      false [] "e" "B/Q"
      [(.indicators, [("mfi", [.record
        { config := { signal := ["x"], alert_enabled := true, alert_frequency := "always",
                      key_signal := "", crossed_signal := "", key_indicator_index := 0,
                      crossed_indicator_index := 0, period_count := 0 },
          result := [{ is_hot := true, is_cold := false, signals := [("x", "1.00000000")] }],
          status := none }]), ("rsi", [.record
        { config := { signal := ["x"], alert_enabled := true, alert_frequency := "always",
                      key_signal := "", crossed_signal := "", key_indicator_index := 0,
                      crossed_indicator_index := 0, period_count := 0 },
          result := [{ is_hot := true, is_cold := false, signals := [("x", "1.00000000")] }],
          status := none }])])] with er | ⟨md0, st0, comp0⟩
  · have hok : (processMarket
      { max_hot_notification := 1, max_cold_notification := 99, period_data := "1h" }
      false [] "e" "B/Q"
      [(.indicators, [("mfi", [.record
        { config := { signal := ["x"], alert_enabled := true, alert_frequency := "always",
                      key_signal := "", crossed_signal := "", key_indicator_index := 0,
                      crossed_indicator_index := 0, period_count := 0 },
          result := [{ is_hot := true, is_cold := false, signals := [("x", "1.00000000")] }],
          status := none }]), ("rsi", [.record
        { config := { signal := ["x"], alert_enabled := true, alert_frequency := "always",
                      key_signal := "", crossed_signal := "", key_indicator_index := 0,
                      crossed_indicator_index := 0, period_count := 0 },
          result := [{ is_hot := true, is_cold := false, signals := [("x", "1.00000000")] }],
          status := none }])])]).isOk = true := by decide
    rw [hpm] at hok
    exact absurd hok (by simp [Except.isOk, Except.toBool])

  · have hlen : (processMarket
      { max_hot_notification := 1, max_cold_notification := 99, period_data := "1h" }
      false [] "e" "B/Q"
      [(.indicators, [("mfi", [.record
        { config := { signal := ["x"], alert_enabled := true, alert_frequency := "always",
                      key_signal := "", crossed_signal := "", key_indicator_index := 0,
                      crossed_indicator_index := 0, period_count := 0 },
          result := [{ is_hot := true, is_cold := false, signals := [("x", "1.00000000")] }],
          status := none }]), ("rsi", [.record
        { config := { signal := ["x"], alert_enabled := true, alert_frequency := "always",
                      key_signal := "", crossed_signal := "", key_indicator_index := 0,
                      crossed_indicator_index := 0, period_count := 0 },
          result := [{ is_hot := true, is_cold := false, signals := [("x", "1.00000000")] }],
          status := none }])])]).toOption.map (fun res => res.2.1.primaryIndicators.length)
        = some 2 := by decide
    rw [hpm] at hlen
    simp [Except.toOption] at hlen
    have hhot : (processMarket
      { max_hot_notification := 1, max_cold_notification := 99, period_data := "1h" }
      false [] "e" "B/Q"
      [(.indicators, [("mfi", [.record
        { config := { signal := ["x"], alert_enabled := true, alert_frequency := "always",
                      key_signal := "", crossed_signal := "", key_indicator_index := 0,
                      crossed_indicator_index := 0, period_count := 0 },
          result := [{ is_hot := true, is_cold := false, signals := [("x", "1.00000000")] }],
          status := none }]), ("rsi", [.record
        { config := { signal := ["x"], alert_enabled := true, alert_frequency := "always",
                      key_signal := "", crossed_signal := "", key_indicator_index := 0,
                      crossed_indicator_index := 0, period_count := 0 },
          result := [{ is_hot := true, is_cold := false, signals := [("x", "1.00000000")] }],
          status := none }])])]).toOption.map (fun res => res.2.1.hotCount) = some 2 := by decide
    rw [hpm] at hhot
    simp [Except.toOption] at hhot
    have hcold : (processMarket
      { max_hot_notification := 1, max_cold_notification := 99, period_data := "1h" }
      false [] "e" "B/Q"
      [(.indicators, [("mfi", [.record
        { config := { signal := ["x"], alert_enabled := true, alert_frequency := "always",
                      key_signal := "", crossed_signal := "", key_indicator_index := 0,
                      crossed_indicator_index := 0, period_count := 0 },
          result := [{ is_hot := true, is_cold := false, signals := [("x", "1.00000000")] }],
          status := none }]), ("rsi", [.record
        { config := { signal := ["x"], alert_enabled := true, alert_frequency := "always",
                      key_signal := "", crossed_signal := "", key_indicator_index := 0,
                      crossed_indicator_index := 0, period_count := 0 },
          result := [{ is_hot := true, is_cold := false, signals := [("x", "1.00000000")] }],
          status := none }])])]).toOption.map (fun res => res.2.1.couldCount) = some 0 := by decide
    rw [hpm] at hcold
    simp [Except.toOption] at hcold
    have hsome : comp0.isSome = true := by
      have h2 : (processMarket
      { max_hot_notification := 1, max_cold_notification := 99, period_data := "1h" }
      false [] "e" "B/Q"
      [(.indicators, [("mfi", [.record
        { config := { signal := ["x"], alert_enabled := true, alert_frequency := "always",
                      key_signal := "", crossed_signal := "", key_indicator_index := 0,
                      crossed_indicator_index := 0, period_count := 0 },
          result := [{ is_hot := true, is_cold := false, signals := [("x", "1.00000000")] }],
          status := none }]), ("rsi", [.record
        { config := { signal := ["x"], alert_enabled := true, alert_frequency := "always",
                      key_signal := "", crossed_signal := "", key_indicator_index := 0,
                      crossed_indicator_index := 0, period_count := 0 },
          result := [{ is_hot := true, is_cold := false, signals := [("x", "1.00000000")] }],
          status := none }])])]).toOption.map (fun res => res.2.2.isSome) = some true := by decide
      rw [hpm] at h2
      simpa [Except.toOption] using h2
    have hiff := C2_composite_trigger
      { max_hot_notification := 1, max_cold_notification := 99, period_data := "1h" }
      false [] "e" "B/Q" _ md0 st0 comp0 hpm
    have hres := hiff.mp hsome
    rw [hlen, hhot, hcold] at hres
    exact hres

/-- C4 evidence: with two eligible hot indicators in one pair, both are
appended to `primaryIndicators`, yet both attached `jsonIndicator` entries
carry `primary = false` — in particular the first indicator to become
eligible is not marked primary, because the source checks
`len(primaryIndicators) == 0` after the append, a condition that can never
hold. -/
theorem C4_primary_flag_never_true :
    (processMarket
      { max_hot_notification := 1, max_cold_notification := 99, period_data := "1h" }
      false [] "e" "B/Q"
      [(.indicators, [("mfi", [.record
        { config := { signal := ["x"], alert_enabled := true, alert_frequency := "always",
                      key_signal := "", crossed_signal := "", key_indicator_index := 0,
                      crossed_indicator_index := 0, period_count := 0 },
          result := [{ is_hot := true, is_cold := false, signals := [("x", "1.00000000")] }],
          status := none }]), ("rsi", [.record
        { config := { signal := ["x"], alert_enabled := true, alert_frequency := "always",
                      key_signal := "", crossed_signal := "", key_indicator_index := 0,
                      crossed_indicator_index := 0, period_count := 0 },
          result := [{ is_hot := true, is_cold := false, signals := [("x", "1.00000000")] }],
          status := none }])])]).toOption.map
      (fun res => (res.2.1.primaryIndicators,
        (lookupAssoc res.2.1.indicatorsData "mfi").map JsonIndicator.primary,
        (lookupAssoc res.2.1.indicatorsData "rsi").map JsonIndicator.primary))
      = some (["mfi", "rsi"], some false, some false) := by decide

/-- C3 counterexample: on the very first cycle (empty `LastAnalysis`), a hot
record with alerting enabled and `alert_frequency = "once"` produces no
alert fragment at all — the aliased last-analysis lookup returns the
just-written status, so debounce suppression does happen on cycle 1. -/
theorem C3_first_cycle_counterexample :
    (indicator_message_templater
      { max_hot_notification := 1, max_cold_notification := 1, period_data := "1h" }
      false []
      [("binance", [("ETH/BTC", [(.indicators, [("rsi", [.record
        { config := { signal := ["rsi"], alert_enabled := true, alert_frequency := "once",
                      key_signal := "", crossed_signal := "", key_indicator_index := 0,
                      crossed_indicator_index := 0, period_count := 0 },
          result := [{ is_hot := true, is_cold := false,
                       signals := [("rsi", "20.00000000")] }],
          status := none }])])])])]).toOption.map
      (fun res => res.fragments.length) = some 0 := by decide

/-- Helper: lookup in an appended association list. -/
theorem lookupAssoc_append {κ α : Type} [DecidableEq κ] (l1 l2 : List (κ × α)) (k : κ) :
    lookupAssoc (l1 ++ l2) k =
      match lookupAssoc l1 k with
      | some v => some v
      | none => lookupAssoc l2 k := by
  induction l1 with
  | nil => simp [lookupAssoc]
  | cons p t ih =>
    obtain ⟨k1, v1⟩ := p
    by_cases h : k1 = k <;> simp [lookupAssoc, h, ih]

/-- Helper: lookup in the override part of the dict merge. -/
theorem lookupAssoc_mapOverride {κ α : Type} [DecidableEq κ] (a b : List (κ × α)) (k : κ) :
    lookupAssoc (a.map (fun p =>
        match lookupAssoc b p.1 with
        | some v => (p.1, v)
        | none => p)) k =
      match lookupAssoc a k with
      | some v => some ((lookupAssoc b k).getD v)
      | none => none := by
  induction a with
  | nil => simp [lookupAssoc]
  | cons p t ih =>
    obtain ⟨k1, v1⟩ := p
    by_cases h : k1 = k
    · subst h
      cases hb : lookupAssoc b k1 <;> simp [lookupAssoc, hb]
    · cases hb : lookupAssoc b k1 <;> simp [lookupAssoc, h, hb, ih]

/-- Helper: lookup in the new-keys part of the dict merge. -/
theorem lookupAssoc_filterNotIn {κ α : Type} [DecidableEq κ] (a b : List (κ × α)) (k : κ) :
    lookupAssoc (b.filter (fun p => (lookupAssoc a p.1).isNone)) k =
      if (lookupAssoc a k).isNone = true then lookupAssoc b k else none := by
  induction b with
  | nil => simp [lookupAssoc]
  | cons p t ih =>
    obtain ⟨k1, v1⟩ := p
    by_cases h : k1 = k
    · subst h
      cases ha : (lookupAssoc a k1).isNone <;>
        simp [lookupAssoc, List.filter_cons, ha, ih]
    · cases ha : (lookupAssoc a k1).isNone <;>
        simp [lookupAssoc, List.filter_cons, ha, h, ih]

/-- Helper: lookup in a dict merge `{**a, **b}` prefers `b` and falls back
to `a`. -/
theorem stateMerge_lookup {κ α : Type} [DecidableEq κ] (a b : List (κ × α)) (k : κ) :
    lookupAssoc (stateMerge a b) k =
      match lookupAssoc b k with
      | some v => some v
      | none => lookupAssoc a k := by
  simp only [stateMerge, lookupAssoc_append, lookupAssoc_mapOverride, lookupAssoc_filterNotIn]
  cases ha : lookupAssoc a k <;> cases hb : lookupAssoc b k <;> simp [ha, hb]

/-- Helper: processing preserves the exchange keys of the analysis
structure. -/
theorem processExchanges_keys (s : Settings) (firstCycle : Bool) (last : AnalysisData)
    (a : AnalysisData) :
    ∀ (a' : AnalysisData) (frags : List Fragment) (datas : List ObjectsData),
      processExchanges s firstCycle last a = .ok (a', frags, datas) →
      a'.map Prod.fst = a.map Prod.fst := by
  induction a with
  | nil =>
    intro a' frags datas hrun
    simp only [processExchanges, Except.ok.injEq, Prod.mk.injEq] at hrun
    obtain ⟨h1, -⟩ := hrun
    subst h1
    rfl
  | cons p t ih =>
    obtain ⟨ex, exData⟩ := p
    intro a' frags datas hrun
    simp only [processExchanges] at hrun
    cases h1 : processMarkets s firstCycle last ex exData with
    | error er => rw [h1] at hrun; exact absurd hrun (by simp)
    | ok q1 =>
      obtain ⟨exData', f1, d1⟩ := q1
      rw [h1] at hrun
      dsimp only at hrun
      cases h2 : processExchanges s firstCycle last t with
      | error er => rw [h2] at hrun; exact absurd hrun (by simp)
      | ok q2 =>
        obtain ⟨t', f2, d2⟩ := q2
        rw [h2] at hrun
        simp only [Except.ok.injEq, Prod.mk.injEq] at hrun
        obtain ⟨ha, -⟩ := hrun
        subst ha
        simp [ih t' f2 d2 h2]

/-- Helper: association lists with the same keys agree on which lookups
miss. -/
theorem lookupAssoc_isNone_of_keys {κ α β : Type} [DecidableEq κ]
    (l1 : List (κ × α)) :
    ∀ (l2 : List (κ × β)), l1.map Prod.fst = l2.map Prod.fst →
      ∀ (k : κ), (lookupAssoc l1 k).isNone = (lookupAssoc l2 k).isNone := by
  induction l1 with
  | nil =>
    intro l2 hk k
    cases l2 with
    | nil => rfl
    | cons q t2 => simp at hk
  | cons p t ih =>
    intro l2 hk k
    cases l2 with
    | nil => simp at hk
    | cons q t2 =>
      obtain ⟨k1, v1⟩ := p
      obtain ⟨k2, v2⟩ := q
      simp only [List.map_cons, List.cons.injEq] at hk
      obtain ⟨hkk, ht⟩ := hk
      subst hkk
      by_cases h : k1 = k <;> simp [lookupAssoc, h, ih t2 ht k]

/-- C6: after State Merge, an exchange key absent from the current cycle's
input keeps exactly the value LastAnalysis held before the merge, and an
exchange key present in the input maps exactly to the current cycle's
(processed) value for that exchange: the merge replaces whole exchanges and
nothing else. -/
theorem C6_state_merge (s : Settings) (tc : Bool)
    (last_analysis new_analysis : AnalysisData) (res : TemplaterResult)
    (hrun : indicator_message_templater s tc last_analysis new_analysis = .ok res) :
    (∀ ex, lookupAssoc new_analysis ex = none →
      lookupAssoc res.newLast ex =
        lookupAssoc (if last_analysis.isEmpty then res.mutated else last_analysis) ex)
    ∧ (∀ ex, (lookupAssoc new_analysis ex).isSome = true →
        lookupAssoc res.newLast ex = lookupAssoc res.mutated ex) := by
  simp only [indicator_message_templater] at hrun
  cases hp : processExchanges s last_analysis.isEmpty last_analysis new_analysis with
  | error er => rw [hp] at hrun; exact absurd hrun (by simp)
  | ok q =>
    obtain ⟨new', frags, datas⟩ := q
    rw [hp] at hrun
    simp only [Except.ok.injEq] at hrun
    subst hrun
    have hkeys := processExchanges_keys s last_analysis.isEmpty last_analysis new_analysis
      new' frags datas hp
    constructor
    · intro ex hnone
      have hnone' : lookupAssoc new' ex = none := by
        have h := lookupAssoc_isNone_of_keys new' new_analysis hkeys ex
        rw [hnone] at h
        simpa [Option.isNone_iff_eq_none] using h
      show lookupAssoc (stateMerge (if last_analysis.isEmpty then new' else last_analysis)
        new') ex = _
      rw [stateMerge_lookup, hnone']
    · intro ex hsome
      have h := lookupAssoc_isNone_of_keys new' new_analysis hkeys ex
      cases hb : lookupAssoc new' ex with
      | none =>
        rw [hb] at h
        simp only [Option.isNone_none] at h
        rw [Option.isSome_iff_ne_none] at hsome
        exact absurd (Option.isNone_iff_eq_none.mp h.symm) hsome
      | some v =>
        have hmerge := stateMerge_lookup
          (if last_analysis.isEmpty then new' else last_analysis) new' ex
        rw [hb] at hmerge
        exact hmerge

/-- C6 witness: with a previous snapshot holding only `kraken` and a current
cycle holding only `binance`, the merged LastAnalysis still maps `kraken` to
its old value, via the merge theorem. -/
theorem C6_state_merge_witness :
    lookupAssoc ([("kraken", ([] : ExchangeData))] : AnalysisData) "kraken"
      = some ([] : ExchangeData) := by
  rcases hpm : indicator_message_templater
      { max_hot_notification := 1, max_cold_notification := 1, period_data := "1h" }
      false [("kraken", ([] : ExchangeData))]
      [("binance", [("ETH/BTC", ([] : MarketData))])] with er | res
  · have hok : (indicator_message_templater
      { max_hot_notification := 1, max_cold_notification := 1, period_data := "1h" }
      false [("kraken", ([] : ExchangeData))]
      [("binance", [("ETH/BTC", ([] : MarketData))])]).isOk = true := by decide
    rw [hpm] at hok
    exact absurd hok (by simp [Except.isOk, Except.toBool])
  · have hc := (C6_state_merge
      { max_hot_notification := 1, max_cold_notification := 1, period_data := "1h" }
      false [("kraken", ([] : ExchangeData))]
      [("binance", [("ETH/BTC", ([] : MarketData))])] res hpm).1 "kraken" (by decide)
    have hval : (indicator_message_templater
      { max_hot_notification := 1, max_cold_notification := 1, period_data := "1h" }
      false [("kraken", ([] : ExchangeData))]
      [("binance", [("ETH/BTC", ([] : MarketData))])]).toOption.map (fun r => lookupAssoc r.newLast "kraken")
        = some (some ([] : ExchangeData)) := by decide
    rw [hpm] at hval
    simp only [Except.toOption, Option.map_some', Option.some.injEq] at hval
    rw [hval] at hc
    exact hc.symm

/-- Helper: one entry step changes the entry only in its `status` field. -/
theorem processEntry_erase (firstCycle : Bool) (last : AnalysisData)
    (ex mk base quote : String) (fam : IndicatorFamily) (ind : String) (idx : Nat)
    (mdata : MarketData) (st : PairState) (e : Entry) (st' : PairState) (e' : Entry)
    (hrun : processEntry firstCycle last ex mk base quote fam ind idx mdata st e
      = .ok (st', e')) :
    eraseEntryStatus e' = eraseEntryStatus e := by
  cases e with
  | lastRow _ => exact absurd hrun (by simp [processEntry])
  | emptyStr => exact absurd hrun (by simp [processEntry])
  | record r =>
    cases hlast : r.result.getLast? with
    | none =>
      simp only [processEntry, hlast, Except.ok.injEq, Prod.mk.injEq] at hrun
      rw [← hrun.2]
    | some latest =>
      cases fam with
      | indicators =>
        obtain ⟨-, -, he, -, -⟩ := processEntry_indicators_char firstCycle last ex mk base
          quote ind idx mdata st r latest st' e' hlast hrun
        rw [he]
        simp [eraseEntryStatus]
      | informants =>
        simp only [processEntry, hlast] at hrun
        cases hv : collectValues latest [] r.config.signal with
        | error er => rw [hv] at hrun; exact absurd hrun (by simp)
        | ok values =>
          rw [hv] at hrun
          simp only [Except.ok.injEq, Prod.mk.injEq] at hrun
          rw [← hrun.2]
      | crossovers =>
        simp only [processEntry, hlast] at hrun
        obtain ⟨-, -, -, -, -, he⟩ := crossoverStep_state st r latest mdata st' e' hrun
        rw [he]

/-- Helper: the entries loop changes entries only in their `status`
fields. -/
theorem processEntries_erase (firstCycle : Bool) (last : AnalysisData)
    (ex mk base quote : String) (fam : IndicatorFamily) (ind : String)
    (mdata : MarketData) (es : List Entry) :
    ∀ (idx : Nat) (st st' : PairState) (es' : List Entry),
      processEntries firstCycle last ex mk base quote fam ind mdata idx st es
        = .ok (st', es') →
      es'.map eraseEntryStatus = es.map eraseEntryStatus := by
  induction es with
  | nil =>
    intro idx st st' es' hrun
    simp only [processEntries, Except.ok.injEq, Prod.mk.injEq] at hrun
    rw [← hrun.2]
  | cons e t ih =>
    intro idx st st' es' hrun
    simp only [processEntries] at hrun
    cases h1 : processEntry firstCycle last ex mk base quote fam ind idx mdata st e with
    | error er => rw [h1] at hrun; exact absurd hrun (by simp)
    | ok p =>
      obtain ⟨st1, e1⟩ := p
      rw [h1] at hrun
      dsimp only at hrun
      cases h2 : processEntries firstCycle last ex mk base quote fam ind mdata (idx + 1) st1 t with
      | error er => rw [h2] at hrun; exact absurd hrun (by simp)
      | ok q =>
        obtain ⟨st2, t2⟩ := q
        rw [h2] at hrun
        simp only [Except.ok.injEq, Prod.mk.injEq] at hrun
        rw [← hrun.2]
        simp only [List.map_cons]
        rw [processEntry_erase firstCycle last ex mk base quote fam ind idx mdata st e st1
          e1 h1, ih (idx + 1) st1 st2 t2 h2]

/-- Helper: the indicators loop changes entries only in their `status`
fields. -/
theorem processIndicators_erase (firstCycle : Bool) (last : AnalysisData)
    (ex mk base quote : String) (fam : IndicatorFamily) (mdata : MarketData)
    (inds : List (String × List Entry)) :
    ∀ (st st' : PairState) (inds' : List (String × List Entry)),
      processIndicators firstCycle last ex mk base quote fam mdata st inds
        = .ok (st', inds') →
      inds'.map (fun p => (p.1, p.2.map eraseEntryStatus))
        = inds.map (fun p => (p.1, p.2.map eraseEntryStatus)) := by
  induction inds with
  | nil =>
    intro st st' inds' hrun
    simp only [processIndicators, Except.ok.injEq, Prod.mk.injEq] at hrun
    rw [← hrun.2]
  | cons p t ih =>
    obtain ⟨ind, es⟩ := p
    intro st st' inds' hrun
    simp only [processIndicators] at hrun
    cases h1 : processEntries firstCycle last ex mk base quote fam ind mdata 0 st es with
    | error er => rw [h1] at hrun; exact absurd hrun (by simp)
    | ok p1 =>
      obtain ⟨st1, es1⟩ := p1
      rw [h1] at hrun
      dsimp only at hrun
      cases h2 : processIndicators firstCycle last ex mk base quote fam mdata st1 t with
      | error er => rw [h2] at hrun; exact absurd hrun (by simp)
      | ok q =>
        obtain ⟨st2, t2⟩ := q
        rw [h2] at hrun
        simp only [Except.ok.injEq, Prod.mk.injEq] at hrun
        rw [← hrun.2]
        simp only [List.map_cons]
        rw [processEntries_erase firstCycle last ex mk base quote fam ind mdata es 0 st st1
          es1 h1, ih st1 st2 t2 h2]

/-- Helper: the families loop changes entries only in their `status`
fields. -/
theorem processFamilies_erase (firstCycle : Bool) (last : AnalysisData)
    (ex mk base quote : String) (mdata : MarketData)
    (fams : List (IndicatorFamily × List (String × List Entry))) :
    ∀ (st st' : PairState) (fams' : MarketData),
      processFamilies firstCycle last ex mk base quote mdata st fams = .ok (st', fams') →
      fams'.map (fun f => (f.1, f.2.map (fun p => (p.1, p.2.map eraseEntryStatus))))
        = fams.map (fun f => (f.1, f.2.map (fun p => (p.1, p.2.map eraseEntryStatus)))) := by
  induction fams with
  | nil =>
    intro st st' fams' hrun
    simp only [processFamilies, Except.ok.injEq, Prod.mk.injEq] at hrun
    rw [← hrun.2]
  | cons p t ih =>
    obtain ⟨fam, inds⟩ := p
    intro st st' fams' hrun
    simp only [processFamilies] at hrun
    cases h1 : processIndicators firstCycle last ex mk base quote fam mdata st inds with
    | error er => rw [h1] at hrun; exact absurd hrun (by simp)
    | ok p1 =>
      obtain ⟨st1, inds1⟩ := p1
      rw [h1] at hrun
      dsimp only at hrun
      cases h2 : processFamilies firstCycle last ex mk base quote mdata st1 t with
      | error er => rw [h2] at hrun; exact absurd hrun (by simp)
      | ok q =>
        obtain ⟨st2, t2⟩ := q
        rw [h2] at hrun
        simp only [Except.ok.injEq, Prod.mk.injEq] at hrun
        rw [← hrun.2]
        simp only [List.map_cons]
        rw [processIndicators_erase firstCycle last ex mk base quote fam mdata inds st st1
          inds1 h1, ih st1 st2 t2 h2]

/-- Helper: one market changes entries only in their `status` fields. -/
theorem processMarket_erase (s : Settings) (firstCycle : Bool) (last : AnalysisData)
    (ex mk : String) (mdata mdata' : MarketData) (st : PairState)
    (comp : Option ObjectsData)
    (hrun : processMarket s firstCycle last ex mk mdata = .ok (mdata', st, comp)) :
    mdata'.map (fun f => (f.1, f.2.map (fun p => (p.1, p.2.map eraseEntryStatus))))
      = mdata.map (fun f => (f.1, f.2.map (fun p => (p.1, p.2.map eraseEntryStatus)))) := by
  simp only [processMarket] at hrun
  cases hs : splitMarket mk with
  | error er => rw [hs] at hrun; exact absurd hrun (by simp)
  | ok bq =>
    obtain ⟨base, quote⟩ := bq
    rw [hs] at hrun
    dsimp only at hrun
    cases hf : processFamilies firstCycle last ex mk base quote mdata initPairState mdata with
    | error er => rw [hf] at hrun; exact absurd hrun (by simp)
    | ok p =>
      obtain ⟨st0, mdata0⟩ := p
      rw [hf] at hrun
      simp only [Except.ok.injEq, Prod.mk.injEq] at hrun
      obtain ⟨hmd, -⟩ := hrun
      rw [← hmd]
      exact processFamilies_erase firstCycle last ex mk base quote mdata mdata initPairState
        st0 mdata0 hf

/-- Helper: the markets loop changes entries only in their `status`
fields. -/
theorem processMarkets_erase (s : Settings) (firstCycle : Bool) (last : AnalysisData)
    (ex : String) (mks : List (String × MarketData)) :
    ∀ (mks' : List (String × MarketData)) (frags : List Fragment)
      (datas : List ObjectsData),
      processMarkets s firstCycle last ex mks = .ok (mks', frags, datas) →
      mks'.map (fun q => (q.1, q.2.map (fun f => (f.1, f.2.map (fun p =>
        (p.1, p.2.map eraseEntryStatus))))))
        = mks.map (fun q => (q.1, q.2.map (fun f => (f.1, f.2.map (fun p =>
            (p.1, p.2.map eraseEntryStatus)))))) := by
  induction mks with
  | nil =>
    intro mks' frags datas hrun
    simp only [processMarkets, Except.ok.injEq, Prod.mk.injEq] at hrun
    rw [← hrun.1]
  | cons p t ih =>
    obtain ⟨mk, mdata⟩ := p
    intro mks' frags datas hrun
    simp only [processMarkets] at hrun
    cases h1 : processMarket s firstCycle last ex mk mdata with
    | error er => rw [h1] at hrun; exact absurd hrun (by simp)
    | ok p1 =>
      obtain ⟨mdata', st0, comp⟩ := p1
      rw [h1] at hrun
      dsimp only at hrun
      cases h2 : processMarkets s firstCycle last ex t with
      | error er => rw [h2] at hrun; exact absurd hrun (by simp)
      | ok q =>
        obtain ⟨t2, f2, d2⟩ := q
        rw [h2] at hrun
        simp only [Except.ok.injEq, Prod.mk.injEq] at hrun
        rw [← hrun.1]
        simp only [List.map_cons]
        rw [processMarket_erase s firstCycle last ex mk mdata mdata' st0 comp h1,
          ih t2 f2 d2 h2]

/-- Helper: the exchanges loop changes entries only in their `status`
fields. -/
theorem processExchanges_erase (s : Settings) (firstCycle : Bool) (last : AnalysisData)
    (a : AnalysisData) :
    ∀ (a' : AnalysisData) (frags : List Fragment) (datas : List ObjectsData),
      processExchanges s firstCycle last a = .ok (a', frags, datas) →
      eraseAnalysisStatus a' = eraseAnalysisStatus a := by
  induction a with
  | nil =>
    intro a' frags datas hrun
    simp only [processExchanges, Except.ok.injEq, Prod.mk.injEq] at hrun
    rw [eraseAnalysisStatus, eraseAnalysisStatus, ← hrun.1]
  | cons p t ih =>
    obtain ⟨ex, exData⟩ := p
    intro a' frags datas hrun
    simp only [processExchanges] at hrun
    cases h1 : processMarkets s firstCycle last ex exData with
    | error er => rw [h1] at hrun; exact absurd hrun (by simp)
    | ok q1 =>
      obtain ⟨exData', f1, d1⟩ := q1
      rw [h1] at hrun
      dsimp only at hrun
      cases h2 : processExchanges s firstCycle last t with
      | error er => rw [h2] at hrun; exact absurd hrun (by simp)
      | ok q2 =>
        obtain ⟨t', f2, d2⟩ := q2
        rw [h2] at hrun
        simp only [Except.ok.injEq, Prod.mk.injEq] at hrun
        rw [eraseAnalysisStatus, eraseAnalysisStatus, ← hrun.1]
        simp only [List.map_cons]
        have hm := processMarkets_erase s firstCycle last ex exData exData' f1 d1 h1
        have ht := ih t' f2 d2 h2
        rw [eraseAnalysisStatus, eraseAnalysisStatus] at ht
        rw [hm, ht]

/-- C8 (amended): writing the computed status back is the only mutation the
message-templating path performs on the analysis structure — the processed
analysis differs from the input at most in per-record `status` fields — but
it is not the only mutation of the system: the webhook dispatch path also
mutates the analysis in place, replacing each instance entry by its last row
(or the empty string). -/
theorem C8_status_writeback_frame :
    (∀ (s : Settings) (tc : Bool) (last_analysis new_analysis : AnalysisData)
        (res : TemplaterResult),
      indicator_message_templater s tc last_analysis new_analysis = .ok res →
      eraseAnalysisStatus res.mutated = eraseAnalysisStatus new_analysis)
    ∧ (notify_webhook true
        [("e", [("B/Q", [(.indicators, [("rsi", [.record
          { config := { signal := ["x"], alert_enabled := true, alert_frequency := "always",
                        key_signal := "", crossed_signal := "", key_indicator_index := 0,
                        crossed_indicator_index := 0, period_count := 0 },
            result := [{ is_hot := true, is_cold := false, signals := [("x", "1.00000000")] }],
            status := none }])])])])]).toOption
      = some ([("e", [("B/Q", [(.indicators, [("rsi", [.lastRow
          { is_hot := true, is_cold := false, signals := [("x", "1.00000000")] }])])])])],
        some [("e", [("B/Q", [(.indicators, [("rsi", [.lastRow
          { is_hot := true, is_cold := false, signals := [("x", "1.00000000")] }])])])])])
    ∧ ([("e", [("B/Q", [(.indicators, [("rsi", [.lastRow
          { is_hot := true, is_cold := false, signals := [("x", "1.00000000")] }])])])])]
        : AnalysisData)
      ≠ [("e", [("B/Q", [(.indicators, [("rsi", [.record
          { config := { signal := ["x"], alert_enabled := true, alert_frequency := "always",
                        key_signal := "", crossed_signal := "", key_indicator_index := 0,
                        crossed_indicator_index := 0, period_count := 0 },
            result := [{ is_hot := true, is_cold := false, signals := [("x", "1.00000000")] }],
            status := none }])])])])] := by
  refine ⟨?_, by decide, by decide⟩
  intro s tc last_analysis new_analysis res hrun
  simp only [indicator_message_templater] at hrun
  cases hp : processExchanges s last_analysis.isEmpty last_analysis new_analysis with
  | error er => rw [hp] at hrun; exact absurd hrun (by simp)
  | ok q =>
    obtain ⟨new', frags, datas⟩ := q
    rw [hp] at hrun
    simp only [Except.ok.injEq] at hrun
    subst hrun
    exact processExchanges_erase s last_analysis.isEmpty last_analysis new_analysis new'
      frags datas hp

/-- C8 counterexample: the webhook dispatch path is an operation other than
the status write-back, yet it changes the input analysis structure — the
record entry is replaced by its bare last row, so the claim that nothing but
the status write-back mutates the analysis is false. -/
theorem C8_counterexample :
    (notify_webhook true
      [("e", [("B/Q", [(.indicators, [("rsi", [.record
        { config := { signal := ["x"], alert_enabled := true, alert_frequency := "always",
                      key_signal := "", crossed_signal := "", key_indicator_index := 0,
                      crossed_indicator_index := 0, period_count := 0 },
          result := [{ is_hot := true, is_cold := false, signals := [("x", "1.00000000")] }],
          status := none }])])])])]).toOption
    = some ([("e", [("B/Q", [(.indicators, [("rsi", [.lastRow
        { is_hot := true, is_cold := false, signals := [("x", "1.00000000")] }])])])])],
      some [("e", [("B/Q", [(.indicators, [("rsi", [.lastRow
        { is_hot := true, is_cold := false, signals := [("x", "1.00000000")] }])])])])])
    ∧ ([("e", [("B/Q", [(.indicators, [("rsi", [.lastRow
        { is_hot := true, is_cold := false, signals := [("x", "1.00000000")] }])])])])]
      : AnalysisData)
    ≠ [("e", [("B/Q", [(.indicators, [("rsi", [.record
        { config := { signal := ["x"], alert_enabled := true, alert_frequency := "always",
                      key_signal := "", crossed_signal := "", key_indicator_index := 0,
                      crossed_indicator_index := 0, period_count := 0 },
          result := [{ is_hot := true, is_cold := false, signals := [("x", "1.00000000")] }],
          status := none }])])])])] := ⟨by decide, by decide⟩

/-- C8 witness: at a concrete hot record the processed analysis gains a
`status` field and nothing else — erasing statuses recovers the input — via
the frame theorem. -/
theorem C8_status_writeback_frame_witness :
    eraseAnalysisStatus
      [("e", [("B/Q", [(.indicators, [("rsi", [.record
      { config := { signal := ["x"], alert_enabled := true, alert_frequency := "always",
                      key_signal := "", crossed_signal := "", key_indicator_index := 0,
                      crossed_indicator_index := 0, period_count := 0 },
        result := [{ is_hot := true, is_cold := false, signals := [("x", "1.00000000")] }],
        status := some "hot" }])])])])]
    = eraseAnalysisStatus
      [("e", [("B/Q", [(.indicators, [("rsi", [.record
      { config := { signal := ["x"], alert_enabled := true, alert_frequency := "always",
                      key_signal := "", crossed_signal := "", key_indicator_index := 0,
                      crossed_indicator_index := 0, period_count := 0 },
        result := [{ is_hot := true, is_cold := false, signals := [("x", "1.00000000")] }],
        status := none }])])])])] := by
  rcases hpm : indicator_message_templater
      { max_hot_notification := 5, max_cold_notification := 5, period_data := "1h" }
      false [("kraken", ([] : ExchangeData))]
      [("e", [("B/Q", [(.indicators, [("rsi", [.record
      { config := { signal := ["x"], alert_enabled := true, alert_frequency := "always",
                      key_signal := "", crossed_signal := "", key_indicator_index := 0,
                      crossed_indicator_index := 0, period_count := 0 },
        result := [{ is_hot := true, is_cold := false, signals := [("x", "1.00000000")] }],
        status := none }])])])])] with er | res
  · have hok : (indicator_message_templater
      { max_hot_notification := 5, max_cold_notification := 5, period_data := "1h" }
      false [("kraken", ([] : ExchangeData))]
      [("e", [("B/Q", [(.indicators, [("rsi", [.record
      { config := { signal := ["x"], alert_enabled := true, alert_frequency := "always",
                      key_signal := "", crossed_signal := "", key_indicator_index := 0,
                      crossed_indicator_index := 0, period_count := 0 },
        result := [{ is_hot := true, is_cold := false, signals := [("x", "1.00000000")] }],
        status := none }])])])])]).isOk = true := by decide
    rw [hpm] at hok
    exact absurd hok (by simp [Except.isOk, Except.toBool])
  · have hframe := C8_status_writeback_frame.1
      { max_hot_notification := 5, max_cold_notification := 5, period_data := "1h" }
      false [("kraken", ([] : ExchangeData))]
      [("e", [("B/Q", [(.indicators, [("rsi", [.record
      { config := { signal := ["x"], alert_enabled := true, alert_frequency := "always",
                      key_signal := "", crossed_signal := "", key_indicator_index := 0,
                      crossed_indicator_index := 0, period_count := 0 },
        result := [{ is_hot := true, is_cold := false, signals := [("x", "1.00000000")] }],
        status := none }])])])])] res hpm
    have hmut : (indicator_message_templater
      { max_hot_notification := 5, max_cold_notification := 5, period_data := "1h" }
      false [("kraken", ([] : ExchangeData))]
      [("e", [("B/Q", [(.indicators, [("rsi", [.record
      { config := { signal := ["x"], alert_enabled := true, alert_frequency := "always",
                      key_signal := "", crossed_signal := "", key_indicator_index := 0,
                      crossed_indicator_index := 0, period_count := 0 },
        result := [{ is_hot := true, is_cold := false, signals := [("x", "1.00000000")] }],
        status := none }])])])])]).toOption.map (fun r => r.mutated)
        = some [("e", [("B/Q", [(.indicators, [("rsi", [.record
      { config := { signal := ["x"], alert_enabled := true, alert_frequency := "always",
                      key_signal := "", crossed_signal := "", key_indicator_index := 0,
                      crossed_indicator_index := 0, period_count := 0 },
        result := [{ is_hot := true, is_cold := false, signals := [("x", "1.00000000")] }],
        status := some "hot" }])])])])] := by decide
    rw [hpm] at hmut
    simp only [Except.toOption, Option.map_some', Option.some.injEq] at hmut
    rw [hmut] at hframe
    exact hframe

/-- Helper: a structure-preserving effectful list map commutes with
positional lookup. -/
theorem mapExceptList_get {α : Type} (f : α → Except String α) (l : List α) :
    ∀ (l' : List α), mapExceptList f l = .ok l' →
      ∀ (i : Nat) (x : α), l.get? i = some x →
        ∃ x', f x = .ok x' ∧ l'.get? i = some x' := by
  induction l with
  | nil =>
    intro l' h i x hx
    simp at hx
  | cons a t ih =>
    intro l' h i x hx
    simp only [mapExceptList] at h
    cases h1 : f a with
    | error er => rw [h1] at h; exact absurd h (by simp)
    | ok a' =>
      rw [h1] at h
      dsimp only at h
      cases h2 : mapExceptList f t with
      | error er => rw [h2] at h; exact absurd h (by simp)
      | ok t' =>
        rw [h2] at h
        simp only [Except.ok.injEq] at h
        subst h
        cases i with
        | zero =>
          simp only [List.get?_cons_zero, Option.some.injEq] at hx
          subst hx
          exact ⟨a', h1, rfl⟩
        | succ n =>
          simp only [List.get?_cons_succ] at hx ⊢
          exact ih t' h2 n x hx

/-- Helper: a structure-preserving effectful map over dictionary values
commutes with key lookup. -/
theorem mapExceptAssoc_lookup {κ α : Type} [DecidableEq κ] (f : α → Except String α)
    (l : List (κ × α)) :
    ∀ (l' : List (κ × α)), mapExceptAssoc f l = .ok l' →
      ∀ (k : κ) (v : α), lookupAssoc l k = some v →
        ∃ v', f v = .ok v' ∧ lookupAssoc l' k = some v' := by
  induction l with
  | nil =>
    intro l' h k v hv
    simp [lookupAssoc] at hv
  | cons p t ih =>
    obtain ⟨k1, v1⟩ := p
    intro l' h k v hv
    simp only [mapExceptAssoc] at h
    cases h1 : f v1 with
    | error er => rw [h1] at h; exact absurd h (by simp)
    | ok v1' =>
      rw [h1] at h
      dsimp only at h
      cases h2 : mapExceptAssoc f t with
      | error er => rw [h2] at h; exact absurd h (by simp)
      | ok t' =>
        rw [h2] at h
        simp only [Except.ok.injEq] at h
        subst h
        by_cases hk : k1 = k
        · subst hk
          simp only [lookupAssoc, ite_true] at hv ⊢
          obtain rfl := Option.some.inj hv
          exact ⟨v1', h1, rfl⟩
        · simp only [lookupAssoc] at hv ⊢
          rw [if_neg hk] at hv
          rw [if_neg hk]
          exact ih t' h2 k v hv

/-- C7: when the webhook is configured, the structure handed to the webhook
client's notify is exactly the mutated analysis, and in it every instance
whose tabular result has at least one row has been replaced by a single-row
object equal to that last row, while an instance with zero rows has been
replaced by the empty string. -/
theorem C7_webhook_last_row (a a' : AnalysisData) (p : Option AnalysisData)
    (hrun : notify_webhook true a = .ok (a', p)) :
    p = some a'
    ∧ (∀ ex mk fam ind idx r row,
        lookupEntry a ex mk fam ind idx = some (.record r) →
        r.result.getLast? = some row →
        lookupEntry a' ex mk fam ind idx = some (.lastRow row))
    ∧ (∀ ex mk fam ind idx r,
        lookupEntry a ex mk fam ind idx = some (.record r) →
        r.result = [] →
        lookupEntry a' ex mk fam ind idx = some .emptyStr) := by
  simp only [notify_webhook, if_true] at hrun
  cases hw : webhookTransform a with
  | error er => rw [hw] at hrun; exact absurd hrun (by simp)
  | ok b =>
    rw [hw] at hrun
    simp only [Except.ok.injEq, Prod.mk.injEq] at hrun
    obtain ⟨hab, hp⟩ := hrun
    subst hab
    refine ⟨hp.symm, ?_, ?_⟩
    all_goals
      intro ex mk fam ind idx r
    · intro row hle hrow
      simp only [lookupEntry] at hle
      cases hA : lookupAssoc a ex with
      | none => rw [hA] at hle; simp at hle
      | some exData =>
        rw [hA] at hle
        simp only [Option.some_bind] at hle
        cases hB : lookupAssoc exData mk with
        | none => rw [hB] at hle; simp at hle
        | some mdata =>
          rw [hB] at hle
          simp only [Option.some_bind] at hle
          cases hC : lookupAssoc mdata fam with
          | none => rw [hC] at hle; simp at hle
          | some inds =>
            rw [hC] at hle
            simp only [Option.some_bind] at hle
            cases hD : lookupAssoc inds ind with
            | none => rw [hD] at hle; simp at hle
            | some entries =>
              rw [hD] at hle
              simp only [Option.some_bind] at hle
              obtain ⟨exData', hgo1, hA'⟩ := mapExceptAssoc_lookup _ a b hw ex exData hA
              obtain ⟨mdata', hgo2, hB'⟩ := mapExceptAssoc_lookup _ exData exData' hgo1 mk
                mdata hB
              obtain ⟨inds', hgo3, hC'⟩ := mapExceptAssoc_lookup _ mdata mdata' hgo2 fam
                inds hC
              obtain ⟨entries', hgo4, hD'⟩ := mapExceptAssoc_lookup _ inds inds' hgo3 ind
                entries hD
              obtain ⟨e', hgo5, hE'⟩ := mapExceptList_get _ entries entries' hgo4 idx
                (.record r) hle
              have he' : e' = .lastRow row := by
                simp only [webhookEntry, hrow] at hgo5
                exact (Except.ok.injEq _ _ ▸ hgo5).symm
              simp only [lookupEntry, hA', Option.some_bind, hB', hC', hD']
              rw [hE', he']
    · intro hle hrow
      simp only [lookupEntry] at hle
      cases hA : lookupAssoc a ex with
      | none => rw [hA] at hle; simp at hle
      | some exData =>
        rw [hA] at hle
        simp only [Option.some_bind] at hle
        cases hB : lookupAssoc exData mk with
        | none => rw [hB] at hle; simp at hle
        | some mdata =>
          rw [hB] at hle
          simp only [Option.some_bind] at hle
          cases hC : lookupAssoc mdata fam with
          | none => rw [hC] at hle; simp at hle
          | some inds =>
            rw [hC] at hle
            simp only [Option.some_bind] at hle
            cases hD : lookupAssoc inds ind with
            | none => rw [hD] at hle; simp at hle
            | some entries =>
              rw [hD] at hle
              simp only [Option.some_bind] at hle
              obtain ⟨exData', hgo1, hA'⟩ := mapExceptAssoc_lookup _ a b hw ex exData hA
              obtain ⟨mdata', hgo2, hB'⟩ := mapExceptAssoc_lookup _ exData exData' hgo1 mk
                mdata hB
              obtain ⟨inds', hgo3, hC'⟩ := mapExceptAssoc_lookup _ mdata mdata' hgo2 fam
                inds hC
              obtain ⟨entries', hgo4, hD'⟩ := mapExceptAssoc_lookup _ inds inds' hgo3 ind
                entries hD
              obtain ⟨e', hgo5, hE'⟩ := mapExceptList_get _ entries entries' hgo4 idx
                (.record r) hle
              have he' : e' = .emptyStr := by
                have hrow2 : r.result.getLast? = none := by
                  rw [hrow]
                  rfl
                simp only [webhookEntry, hrow2] at hgo5
                exact (Except.ok.injEq _ _ ▸ hgo5).symm
              simp only [lookupEntry, hA', Option.some_bind, hB', hC', hD']
              rw [hE', he']

/-- C7 witness: at a concrete one-row record the webhook payload holds the
bare last row at the record's coordinate, via the webhook theorem. -/
theorem C7_webhook_last_row_witness :
    lookupEntry
      [("e2", [("B/Q", [(.indicators, [("macd", [.lastRow
      { is_hot := false, is_cold := true, signals := [("x", "2.00000000")] }])])])])]
      "e2" "B/Q" .indicators "macd" 0
    = some (.lastRow { is_hot := false, is_cold := true, signals := [("x", "2.00000000")] }) := by
  rcases hpm : notify_webhook true [("e2", [("B/Q", [(.indicators, [("macd", [.record
      { config := { signal := ["x"], alert_enabled := true, alert_frequency := "always",
                      key_signal := "", crossed_signal := "", key_indicator_index := 0,
                      crossed_indicator_index := 0, period_count := 0 },
        result := [{ is_hot := false, is_cold := true, signals := [("x", "2.00000000")] }],
        status := none }])])])])] with er | q
  · have hok : (notify_webhook true [("e2", [("B/Q", [(.indicators, [("macd", [.record
      { config := { signal := ["x"], alert_enabled := true, alert_frequency := "always",
                      key_signal := "", crossed_signal := "", key_indicator_index := 0,
                      crossed_indicator_index := 0, period_count := 0 },
        result := [{ is_hot := false, is_cold := true, signals := [("x", "2.00000000")] }],
        status := none }])])])])]).isOk = true := by decide
    rw [hpm] at hok
    exact absurd hok (by simp [Except.isOk, Except.toBool])
  · obtain ⟨a2, p2⟩ := q
    have h := (C7_webhook_last_row [("e2", [("B/Q", [(.indicators, [("macd", [.record
      { config := { signal := ["x"], alert_enabled := true, alert_frequency := "always",
                      key_signal := "", crossed_signal := "", key_indicator_index := 0,
                      crossed_indicator_index := 0, period_count := 0 },
        result := [{ is_hot := false, is_cold := true, signals := [("x", "2.00000000")] }],
        status := none }])])])])] a2 p2 hpm).2.1 "e2" "B/Q" .indicators "macd" 0
      { config := { signal := ["x"], alert_enabled := true, alert_frequency := "always",
                      key_signal := "", crossed_signal := "", key_indicator_index := 0,
                      crossed_indicator_index := 0, period_count := 0 },
        result := [{ is_hot := false, is_cold := true, signals := [("x", "2.00000000")] }],
        status := none }
      { is_hot := false, is_cold := true, signals := [("x", "2.00000000")] } (by decide) rfl
    have hb : (notify_webhook true [("e2", [("B/Q", [(.indicators, [("macd", [.record
      { config := { signal := ["x"], alert_enabled := true, alert_frequency := "always",
                      key_signal := "", crossed_signal := "", key_indicator_index := 0,
                      crossed_indicator_index := 0, period_count := 0 },
        result := [{ is_hot := false, is_cold := true, signals := [("x", "2.00000000")] }],
        status := none }])])])])]).toOption.map (fun q => q.1)
        = some [("e2", [("B/Q", [(.indicators, [("macd", [.lastRow
      { is_hot := false, is_cold := true, signals := [("x", "2.00000000")] }])])])])] := by decide
    rw [hpm] at hb
    simp only [Except.toOption, Option.map_some', Option.some.injEq] at hb
    rw [hb] at h
    exact h

/-- Helper: a successful `Except` bind means the first stage succeeded and
the continuation succeeded on its value. -/
theorem isOk_of_bind {α β : Type} (x : Except String α) (f : α → Except String β)
    (h : (x >>= f).isOk = true) : ∃ a, x = .ok a ∧ (f a).isOk = true := by
  cases x with
  | error er => simp [Bind.bind, Except.bind, Except.isOk, Except.toBool] at h
  | ok a => exact ⟨a, rfl, by simpa [Bind.bind, Except.bind] using h⟩

/-- Helper: a successful `getKey` means the key is present. -/
theorem getKey_isSome {α : Type} (l : List (String × α)) (k : String) (v : α)
    (h : getKey l k = .ok v) : (lookupAssoc l k).isSome = true := by
  simp only [getKey] at h
  cases hl : lookupAssoc l k with
  | none => rw [hl] at h; exact absurd h (by simp)
  | some w => simp

/-- Helper: a successfully assembled composite message requires every fixed
key of the composite layout to be present. -/
theorem buildComposite_requires (s : Settings) (d : ObjectsData)
    (h : (buildCompositeMessage s d).isOk = true) :
    (lookupAssoc d.informants "ohlcv").isSome = true
    ∧ (lookupAssoc d.indicators "mfi").isSome = true
    ∧ (lookupAssoc d.indicators "rsi").isSome = true
    ∧ (lookupAssoc d.indicators "stoch_rsi").isSome = true
    ∧ (lookupAssoc d.indicators "macd").isSome = true
    ∧ (lookupAssoc d.informants "bollinger_bands").isSome = true
    ∧ (lookupAssoc d.crossed "ema").isSome = true
    ∧ (lookupAssoc d.indicators "ichimoku").isSome = true := by
  simp only [buildCompositeMessage] at h
  obtain ⟨ohlcv, h1, h⟩ := isOk_of_bind _ _ h
  obtain ⟨close, h2, h⟩ := isOk_of_bind _ _ h
  obtain ⟨mfi, h3, h⟩ := isOk_of_bind _ _ h
  obtain ⟨mfiValue, h4, h⟩ := isOk_of_bind _ _ h
  obtain ⟨rsi, h5, h⟩ := isOk_of_bind _ _ h
  obtain ⟨rsiValue, h6, h⟩ := isOk_of_bind _ _ h
  obtain ⟨stochRsi, h7, h⟩ := isOk_of_bind _ _ h
  obtain ⟨stochRsiValue, h8, h⟩ := isOk_of_bind _ _ h
  obtain ⟨macd, h9, h⟩ := isOk_of_bind _ _ h
  obtain ⟨macdValue, h10, h⟩ := isOk_of_bind _ _ h
  obtain ⟨bbResult, h11, h⟩ := isOk_of_bind _ _ h
  obtain ⟨ubStr, h12, h⟩ := isOk_of_bind _ _ h
  obtain ⟨ub, h13, h⟩ := isOk_of_bind _ _ h
  obtain ⟨mbStr, h14, h⟩ := isOk_of_bind _ _ h
  obtain ⟨mb, h15, h⟩ := isOk_of_bind _ _ h
  obtain ⟨lbStr, h16, h⟩ := isOk_of_bind _ _ h
  obtain ⟨lb, h17, h⟩ := isOk_of_bind _ _ h
  obtain ⟨closeRat, h18, h⟩ := isOk_of_bind _ _ h
  obtain ⟨ema, h19, h⟩ := isOk_of_bind _ _ h
  obtain ⟨ichimoku, h20, h⟩ := isOk_of_bind _ _ h
  exact ⟨getKey_isSome _ _ _ h1, getKey_isSome _ _ _ h3, getKey_isSome _ _ _ h5,
    getKey_isSome _ _ _ h7, getKey_isSome _ _ _ h9, getKey_isSome _ _ _ h11,
    getKey_isSome _ _ _ h19, getKey_isSome _ _ _ h20⟩

/-- C9: a failure while assembling the fixed composite message is caught
inside `notify_custom_telegram` — the outcome is `dropped` with the caught
error and no message is handed to the telegram client — and any missing
fixed key of the composite layout produces exactly such a failure; the call
is a total function, so no exception propagates to the templater. -/
theorem C9_composite_fault_containment :
    (∀ (tc : Bool) (s : Settings) (d : ObjectsData) (er : String),
      buildCompositeMessage s d = .error er →
        notify_custom_telegram tc s d = .dropped er
        ∧ notifySent (notify_custom_telegram tc s d) = none)
    ∧ (∀ (tc : Bool) (s : Settings) (d : ObjectsData),
        ((lookupAssoc d.informants "ohlcv").isNone = true ∨
         (lookupAssoc d.indicators "mfi").isNone = true ∨
         (lookupAssoc d.indicators "rsi").isNone = true ∨
         (lookupAssoc d.indicators "stoch_rsi").isNone = true ∨
         (lookupAssoc d.indicators "macd").isNone = true ∨
         (lookupAssoc d.informants "bollinger_bands").isNone = true ∨
         (lookupAssoc d.crossed "ema").isNone = true ∨
         (lookupAssoc d.indicators "ichimoku").isNone = true) →
        ∃ er, buildCompositeMessage s d = .error er
          ∧ notify_custom_telegram tc s d = .dropped er
          ∧ notifySent (notify_custom_telegram tc s d) = none) := by
  have hdrop : ∀ (tc : Bool) (s : Settings) (d : ObjectsData) (er : String),
      buildCompositeMessage s d = .error er →
        notify_custom_telegram tc s d = .dropped er := by
    intro tc s d er he
    simp only [notify_custom_telegram, he]
  refine ⟨fun tc s d er he => ⟨hdrop tc s d er he, ?_⟩, ?_⟩
  · rw [hdrop tc s d er he]
    rfl
  · intro tc s d hmiss
    cases hb : buildCompositeMessage s d with
    | error er =>
      exact ⟨er, rfl, hdrop tc s d er hb, by rw [hdrop tc s d er hb]; rfl⟩
    | ok m =>
      exfalso
      obtain ⟨q1, q2, q3, q4, q5, q6, q7, q8⟩ :=
        buildComposite_requires s d (by rw [hb]; rfl)
      rcases hmiss with h|h|h|h|h|h|h|h
      · rw [Option.isNone_iff_eq_none] at h; rw [h] at q1; exact absurd q1 (by decide)
      · rw [Option.isNone_iff_eq_none] at h; rw [h] at q2; exact absurd q2 (by decide)
      · rw [Option.isNone_iff_eq_none] at h; rw [h] at q3; exact absurd q3 (by decide)
      · rw [Option.isNone_iff_eq_none] at h; rw [h] at q4; exact absurd q4 (by decide)
      · rw [Option.isNone_iff_eq_none] at h; rw [h] at q5; exact absurd q5 (by decide)
      · rw [Option.isNone_iff_eq_none] at h; rw [h] at q6; exact absurd q6 (by decide)
      · rw [Option.isNone_iff_eq_none] at h; rw [h] at q7; exact absurd q7 (by decide)
      · rw [Option.isNone_iff_eq_none] at h; rw [h] at q8; exact absurd q8 (by decide)

/-- C9 witness: a composite aggregate missing the `mfi` indicator yields no
telegram notify, via the containment theorem. -/
theorem C9_composite_fault_containment_witness :
    notifySent (notify_custom_telegram true
      { max_hot_notification := 1, max_cold_notification := 1, period_data := "1h" }
      { name := "ETHBTC", exchange := "binance", crosed := false, crossed := [],
        informants := [("ohlcv",
          { result := [("close", "0.05000000")],
            config := { signal := ["close"], alert_enabled := true,
                        alert_frequency := "always", key_signal := "",
                        crossed_signal := "", key_indicator_index := 0,
                        crossed_indicator_index := 0, period_count := 0 } })],
        indicators := [] }) = none := by
  obtain ⟨er, -, -, hnone⟩ := C9_composite_fault_containment.2 true
    { max_hot_notification := 1, max_cold_notification := 1, period_data := "1h" }
    { name := "ETHBTC", exchange := "binance", crosed := false, crossed := [],
      informants := [("ohlcv",
        { result := [("close", "0.05000000")],
          config := { signal := ["close"], alert_enabled := true,
                      alert_frequency := "always", key_signal := "",
                      crossed_signal := "", key_indicator_index := 0,
                      crossed_indicator_index := 0, period_count := 0 } })],
      indicators := [] }
    (Or.inr (Or.inl (by decide)))
  exact hnone
